import Mathlib

/-!
# StereoKit: controller / hand visuals and the Linux windowing backend

A shallow embedding of

* `StereoKitC/systems/input_render.cpp` (controller model resolution, the
  per-frame input render pass), and
* `StereoKitC/systems/platform/linux.cpp` (window resize, the key map and the
  input thread, initialisation),

followed by theorems about them.

Conventions of the embedding.

* Asset handles (`model_t`, `material_t`, `mesh_t`) are pointers; they are
  natural numbers and `nullptr` is `0`.
* The file-static `local` of `input_render.cpp`, the globals it reads and the
  asset layer are fields of one explicit world record, `sk_world`; every
  function of the source is a function from worlds to worlds.
* The OpenXR runtime is an oracle, `xr_runtime`: its answers may depend on the
  whole history of runtime calls made so far, which the world records in
  `xr_log`.
* Floating point matrices are never computed; a matrix is the expression that
  denotes it (`matrix`).
-/

namespace sk

/-! ## Handles, hands, matrices -/

/-- Handle of a model asset (a pointer). -/
abbrev model_t := Nat
/-- Handle of a material asset (a pointer). -/
abbrev material_t := Nat
/-- Handle of a mesh asset (a pointer). -/
abbrev mesh_t := Nat
/-- The null pointer. -/
abbrev nullptr : Nat := 0

/-- The enum `handed_`: `handed_left = 0`, `handed_right = 1`, `handed_max = 2`. -/
inductive handed_ where
  | handed_left
  | handed_right
  | handed_max
  deriving DecidableEq, Repr

open handed_

/-- A 4x4 float matrix, kept as the expression that denotes it.  `value c` is a
matrix the embedded code only passes around, `gltf_root data size` is the local
transform the glTF loader gives the root node of a model built from `size`
bytes of `data`, `from_angles x y z` is `matrix_from_angles(x, y, z)`, `mul a b`
is the C++ `a * b`. -/
inductive matrix where
  | value (code : Nat)
  | gltf_root (data : List Nat) (size : Nat)
  | from_angles (x y z : Int)
  | mul (a b : matrix)
  deriving DecidableEq, Repr

/-- A controller pose (position and orientation), only passed around. -/
structure pose_t where
  position : Nat
  orientation : Nat
  deriving DecidableEq, Repr

/-- The float colour `color128`; every component the code writes (`1`, `1.5f`)
is an exact rational. -/
structure color128 where
  r : Rat
  g : Rat
  b : Rat
  a : Rat
  deriving DecidableEq, Repr

/-! ## The OpenXR runtime -/

/-- A call made to the OpenXR runtime. -/
inductive xr_call where
  | xrStringToPath (path : String)
  | xrGetControllerModelKeyMSFT (hand_path : String)
  | xrLoadControllerModelMSFT (model_key : Nat) (buffer_capacity_input : Nat)
  deriving DecidableEq, Repr

/-- The answer of `xrLoadControllerModelMSFT`: the `XrResult`, the value written
to `bufferCountOutput`, and the bytes written to the buffer. -/
structure xr_load_result where
  result : Int
  buffer_count_output : Nat
  buffer : List Nat
  deriving DecidableEq, Repr

/-- The runtime as an oracle.  Each function receives the calls made before
this one (most recent last) and the arguments of the call.
`xrGetControllerModelKeyMSFT` answers the `XrResult` and the `modelKey` it
writes into the key state. -/
structure xr_runtime where
  xrGetControllerModelKeyMSFT : List xr_call → String → Int × Nat
  xrLoadControllerModelMSFT : List xr_call → Nat → Nat → xr_load_result

/-- The OpenXR macro `XR_SUCCEEDED(result)`, which is `(result) >= 0`. -/
def XR_SUCCEEDED (result : Int) : Bool := decide (0 ≤ result)

/-- The OpenXR constant `XR_NULL_CONTROLLER_MODEL_KEY_MSFT`. -/
abbrev XR_NULL_CONTROLLER_MODEL_KEY_MSFT : Nat := 0

/-! ## State -/

/-- The struct `hand_mesh_t`, with the four fields `input_render.cpp` uses. -/
structure hand_mesh_t where
  root_transform : matrix
  mesh : mesh_t
  verts : Nat
  inds : Nat
  deriving DecidableEq, Repr

/-- The struct `input_render_state_t`.  The arrays of length `handed_max` are
functions of the hand; slot `handed_max` lies outside the C array, no embedded
function writes it, and no theorem below speaks of it. -/
structure input_render_state_t where
  render_mode : Nat
  hand_fallback_mesh : handed_ → hand_mesh_t
  hand_articulated_mesh : handed_ → hand_mesh_t
  hand_material : handed_ → material_t
  controller_model : handed_ → model_t
  model_is_fallback : Bool

/-- An operation on the asset layer, in the order it was made. -/
inductive asset_op where
  | model_addref (model : model_t)
  | model_release (model : model_t)
  | model_create_mem (filename : String) (model : model_t)
  | model_set_id (model : model_t) (id : String)
  | material_addref (material : material_t)
  | material_release (material : material_t)
  deriving DecidableEq, Repr

/-- A call queued on the renderer, or a hand mesh update, made by the input
render pass.  The mesh draws carry (mesh, material, transform, colour), the
model draw carries the model and the pose `matrix_trs` is applied to. -/
inductive render_call where
  | hand_oxra_update_system_mesh (hand : handed_)
  | input_hand_update_fallback_mesh (hand : handed_)
  | render_add_mesh (mesh : mesh_t) (material : material_t) (transform : matrix)
      (color : color128)
  | render_add_model (model : model_t) (pose : pose_t)
  deriving DecidableEq, Repr

/-- Modelled from the spec: the model part of the asset layer (`model.h`,
`assets.h`, which are not among the sources).  Every handle has a reference
count, an id, the local transform of its root node and `nodes_used`; the
handles `1 .. count` are the ones created so far.  A model whose count is zero
has been freed. -/
structure model_store where
  refs : model_t → Nat
  id : model_t → String
  root_local : model_t → matrix
  nodes_used : model_t → Nat
  count : Nat

/-- Everything the embedded functions read or write. -/
structure sk_world where
  /-- the file-static `local` of `input_render.cpp` -/
  input_render : input_render_state_t
  /-- the global `sk_default_controller_l` of `defaults.h` -/
  sk_default_controller_l : model_t
  /-- the global `sk_default_controller_r` of `defaults.h` -/
  sk_default_controller_r : model_t
  /-- whether `xr_ext.MSFT_controller_model == xr_ext_active` -/
  MSFT_controller_model : Bool
  /-- whether `xr_ext.MSFT_hand_tracking_mesh == xr_ext_active` -/
  MSFT_hand_tracking_mesh : Bool
  models : model_store
  material_refs : material_t → Nat
  xr_log : List xr_call
  asset_log : List asset_op
  render_log : List render_call

/-! ## The asset layer -/

/-- Modelled from the spec: `model_addref` of the asset layer (`addref`:
the reference count goes up by one). -/
def model_addref (model : model_t) (w : sk_world) : sk_world :=
  { w with
    models := { w.models with refs := Function.update w.models.refs model (w.models.refs model + 1) }
    asset_log := w.asset_log ++ [asset_op.model_addref model] }

/-- Modelled from the spec: `model_release` of the asset layer (`release`
decrements the count and frees at zero); releasing `nullptr` does nothing, as
`input_render_init` relies on when it sets a model into the zeroed state. -/
def model_release (model : model_t) (w : sk_world) : sk_world :=
  if model = nullptr then w
  else
    { w with
      models := { w.models with refs := Function.update w.models.refs model (w.models.refs model - 1) }
      asset_log := w.asset_log ++ [asset_op.model_release model] }

/-- Modelled from the spec: `model_find` of the asset layer (`findByString`,
"check the model cache by stringified key"): the first live model with this
id, or `nullptr`. -/
def model_find (id : String) (w : sk_world) : model_t :=
  match (List.range (w.models.count + 1)).find?
      (fun m => decide (m ≠ nullptr) && decide (0 < w.models.refs m) && decide (w.models.id m = id)) with
  | some m => m
  | none => nullptr

/-- Modelled from the spec: `model_create_mem` of the asset layer ("construct
a model from the binary blob"): a new handle, never null, holding one
reference, its root node at the transform the loader read from the blob.  The
spec does not say which id and `nodes_used` a new model has; the caller
overwrites both (lines 213 and 214), and the store keeps what it held. -/
def model_create_mem (filename : String) (data : List Nat) (data_size : Nat) (w : sk_world) :
    model_t × sk_world :=
  let model := w.models.count + 1
  (model,
    { w with
      models :=
        { w.models with
          refs := Function.update w.models.refs model 1
          root_local := Function.update w.models.root_local model (matrix.gltf_root data data_size)
          count := model }
      asset_log := w.asset_log ++ [asset_op.model_create_mem filename model] })

/-- Modelled from the spec: `model_node_get_transform_local` of the asset
layer, at the root node (`model_node_get_root`). -/
def model_node_get_transform_local_root (model : model_t) (w : sk_world) : matrix :=
  w.models.root_local model

/-- Modelled from the spec: `model_node_set_transform_local` of the asset
layer, at the root node (`model_node_get_root`). -/
def model_node_set_transform_local_root (model : model_t) (transform : matrix) (w : sk_world) :
    sk_world :=
  { w with models := { w.models with root_local := Function.update w.models.root_local model transform } }

/-- Modelled from the spec: `model_set_id` of the asset layer (`setId`, "tag
the model with the stringified key as its cache identifier"). -/
def model_set_id (model : model_t) (id : String) (w : sk_world) : sk_world :=
  { w with
    models := { w.models with id := Function.update w.models.id model id }
    asset_log := w.asset_log ++ [asset_op.model_set_id model id] }

/-! ## `input_render.cpp`: the controller model -/

/-- Records a call to the runtime. -/
def xr_record (c : xr_call) (w : sk_world) : sk_world :=
  { w with xr_log := w.xr_log ++ [c] }

/-- The expression `hand == handed_left ? sk_default_controller_l :
sk_default_controller_r` (lines 228 and 232). -/
def default_controller (hand : handed_) (w : sk_world) : model_t :=
  if hand = handed_left then w.sk_default_controller_l else w.sk_default_controller_r

/-- Writes `local.model_is_fallback`. -/
def set_model_is_fallback (b : Bool) (w : sk_world) : sk_world :=
  { w with input_render := { w.input_render with model_is_fallback := b } }

/-- Writes `local.controller_model[hand]`. -/
def set_controller_model (hand : handed_) (model : model_t) (w : sk_world) : sk_world :=
  { w with input_render :=
      { w.input_render with
        controller_model := Function.update w.input_render.controller_model hand model } }

/-- The expression `hand == handed_left ? "/user/hand/left" : "/user/hand/right"`
(line 194). -/
def hand_path (hand : handed_) : String :=
  if hand = handed_left then "/user/hand/left" else "/user/hand/right"

/-- Lines 207-214 of `input_controller_model_set`: the model is built from the
filled buffer, its root node is turned by 180 degrees, it is given the key
string as id, and `nodes_used` is overwritten with the buffer capacity. -/
def controller_model_create (hand : handed_) (key_str : String) (buffer_capacity_input : Nat)
    (model_buffer : List Nat) (buffer_count_output : Nat) (w : sk_world) : model_t × sk_world :=
  let created := model_create_mem
    (if hand = handed_left then "msft/controller_l_" ++ key_str ++ ".glb"
     else "msft/controller_r_" ++ key_str ++ ".glb")
    model_buffer buffer_count_output w
  let model := created.1
  let w := created.2
  let w := model_node_set_transform_local_root model
    (matrix.mul (model_node_get_transform_local_root model w) (matrix.from_angles 0 180 0)) w
  let w := model_set_id model key_str w
  let w := { w with models :=
    { w.models with
      nodes_used := Function.update w.models.nodes_used model buffer_capacity_input } }
  (model, w)

/-- Lines 202-216 of `input_controller_model_set`: the cache missed, the model
is asked of the runtime (size query, then fill).  Returns the local `model`,
`nullptr` when either call fails. -/
def controller_model_load (xr : xr_runtime) (hand : handed_) (model_key : Nat) (key_str : String)
    (w : sk_world) : model_t × sk_world :=
  let size_query := xr.xrLoadControllerModelMSFT w.xr_log model_key 0
  let w := xr_record (xr_call.xrLoadControllerModelMSFT model_key 0) w
  if XR_SUCCEEDED size_query.result then
    let buffer_capacity_input := size_query.buffer_count_output
    let fill := xr.xrLoadControllerModelMSFT w.xr_log model_key buffer_capacity_input
    let w := xr_record (xr_call.xrLoadControllerModelMSFT model_key buffer_capacity_input) w
    if XR_SUCCEEDED fill.result then
      controller_model_create hand key_str buffer_capacity_input fill.buffer
        fill.buffer_count_output w
    else (nullptr, w)
  else (nullptr, w)

/-- Lines 193-225 of `input_controller_model_set`: the body of
`if (xr_ext.MSFT_controller_model == xr_ext_active)` up to the second null
test.  Returns the local `model` (still `nullptr` when the runtime gave none)
and the world.  The `XrPath` of a hand is the path string itself. -/
def controller_model_from_runtime (xr : xr_runtime) (hand : handed_) (w : sk_world) :
    model_t × sk_world :=
  let w := xr_record (xr_call.xrStringToPath (hand_path hand)) w
  let key_state := xr.xrGetControllerModelKeyMSFT w.xr_log (hand_path hand)
  let w := xr_record (xr_call.xrGetControllerModelKeyMSFT (hand_path hand)) w
  if XR_SUCCEEDED key_state.1 && decide (key_state.2 ≠ XR_NULL_CONTROLLER_MODEL_KEY_MSFT) then
    let key_str := toString key_state.2
    let model := model_find key_str w
    if model = nullptr then controller_model_load xr hand key_state.2 key_str w
    else (model, w)
  else (nullptr, w)

/-- Lines 189-239 of `input_controller_model_set`: the `if (model == nullptr)`
statement, which resolves a null argument and writes `model_is_fallback`.
Returns the local `model` and the world. -/
def controller_model_resolve (xr : xr_runtime) (hand : handed_) (model : model_t)
    (w : sk_world) : model_t × sk_world :=
  if model = nullptr then
    let r : model_t × sk_world :=
      if w.MSFT_controller_model then
        let r := controller_model_from_runtime xr hand w
        if r.1 = nullptr then (default_controller hand r.2, r.2) else r
      else (default_controller hand w, w)
    (r.1, set_model_is_fallback true r.2)
  else (model, set_model_is_fallback false w)

/-- Lines 241-246 of `input_controller_model_set`: the replacement of the
stored handle. -/
def controller_model_store (hand : handed_) (model : model_t) (w : sk_world) : sk_world :=
  if model ≠ w.input_render.controller_model hand then
    let w := model_addref model w
    let w := model_release (w.input_render.controller_model hand) w
    set_controller_model hand model w
  else w

/-- The body of `input_controller_model_set` below the `handed_max` test
(lines 189-246), for one hand. -/
def input_controller_model_set_hand (xr : xr_runtime) (hand : handed_) (model : model_t)
    (w : sk_world) : sk_world :=
  let r := controller_model_resolve xr hand model w
  controller_model_store hand r.1 r.2

/-- The function `input_controller_model_set`.  The two recursive calls of the
`handed_max` case are calls of the one-hand body, since neither `handed_left`
nor `handed_right` is `handed_max`. -/
def input_controller_model_set (xr : xr_runtime) (hand : handed_) (model : model_t)
    (w : sk_world) : sk_world :=
  if hand = handed_max then
    let w := input_controller_model_set_hand xr handed_left model w
    input_controller_model_set_hand xr handed_right model w
  else input_controller_model_set_hand xr hand model w

/-- The function `input_controller_model_get`: the returned handle and the
world. -/
def input_controller_model_get (hand : handed_) (w : sk_world) : model_t × sk_world :=
  let w :=
    if w.input_render.controller_model hand ≠ nullptr then
      model_addref (w.input_render.controller_model hand) w
    else w
  (w.input_render.controller_model hand, w)

/-! ## `input_render.cpp`: the per-frame render pass -/

/-- The enum `app_focus_`. -/
inductive app_focus_ where
  | app_focus_active
  | app_focus_background
  | app_focus_hidden
  deriving DecidableEq, Repr

/-- The enum `hand_source_`. -/
inductive hand_source_ where
  | hand_source_none
  | hand_source_simulated
  | hand_source_articulated
  | hand_source_overridden
  deriving DecidableEq, Repr

open app_focus_ hand_source_

/-- The fields of `hand_t` the render pass reads; the two states are
`button_state_` bit flags, `fingers` stands for the joint array. -/
structure hand_t where
  fingers : Nat
  tracked_state : Nat
  pinch_state : Nat
  deriving DecidableEq, Repr

/-- The fields of `controller_t` the render pass reads; `tracked` is a
`button_state_` bit flag set. -/
structure controller_t where
  pose : pose_t
  tracked : Nat
  deriving DecidableEq, Repr

/-- What one frame of `input_render_step_late` reads from the rest of the
engine: the value of the enum constant `button_state_active` (declared in
`stereokit.h`), the application focus, the input system's current hands and
controllers, and the two mesh generators it calls (`hand_oxra_update_system_mesh`
rewrites a `hand_mesh_t`; `input_gen_fallback_mesh` receives the fingers, the
mesh and the two buffers and answers the new buffers). -/
structure frame_env where
  button_state_active : Nat
  sk_app_focus : app_focus_
  input_hand_get_visible : handed_ → Bool
  input_hand_source : handed_ → hand_source_
  input_hand : handed_ → hand_t
  input_controller : handed_ → controller_t
  hand_oxra_update_system_mesh : handed_ → hand_mesh_t → hand_mesh_t
  input_gen_fallback_mesh : Nat → mesh_t → Nat → Nat → Nat × Nat

/-- Queues a call on the render log. -/
def render_record (c : render_call) (w : sk_world) : sk_world :=
  { w with render_log := w.render_log ++ [c] }

/-- The call `hand_oxra_update_system_mesh((handed_)i, &local.hand_articulated_mesh[i])`. -/
def hand_oxra_update_system_mesh (f : frame_env) (i : handed_) (w : sk_world) : sk_world :=
  render_record (render_call.hand_oxra_update_system_mesh i)
    { w with input_render :=
        { w.input_render with
          hand_articulated_mesh := Function.update w.input_render.hand_articulated_mesh i
            (f.hand_oxra_update_system_mesh i (w.input_render.hand_articulated_mesh i)) } }

/-- The function `input_hand_update_fallback_mesh`, called on
`&local.hand_fallback_mesh[handed]`. -/
def input_hand_update_fallback_mesh (f : frame_env) (handed : handed_) (w : sk_world) : sk_world :=
  let hand_mesh := w.input_render.hand_fallback_mesh handed
  let buffers := f.input_gen_fallback_mesh (f.input_hand handed).fingers hand_mesh.mesh
    hand_mesh.verts hand_mesh.inds
  render_record (render_call.input_hand_update_fallback_mesh handed)
    { w with input_render :=
        { w.input_render with
          hand_fallback_mesh := Function.update w.input_render.hand_fallback_mesh handed
            { hand_mesh with verts := buffers.1, inds := buffers.2 } } }

/-- The colour argument of both `render_add_mesh` calls:
`hand->pinch_state & button_state_active ? color128{1.5f,1.5f,1.5f,1} : color128{1,1,1,1}`. -/
def pinch_color (f : frame_env) (hand : hand_t) : color128 :=
  if hand.pinch_state &&& f.button_state_active ≠ 0 then
    { r := 3 / 2, g := 3 / 2, b := 3 / 2, a := 1 }
  else { r := 1, g := 1, b := 1, a := 1 }

/-- The body of the `for` loop of `input_render_step_late` (lines 126-154). -/
def input_render_step_late_hand (xr : xr_runtime) (f : frame_env) (i : handed_)
    (w : sk_world) : sk_world :=
  if f.input_hand_get_visible i = false then w
  else
    let source := f.input_hand_source i
    if source = hand_source_articulated then
      let hand := f.input_hand i
      if (hand.tracked_state &&& f.button_state_active) ≠ 0 ∧
          w.input_render.hand_material i ≠ nullptr then
        if w.MSFT_hand_tracking_mesh then
          let w := hand_oxra_update_system_mesh f i w
          let hand_active_mesh := w.input_render.hand_articulated_mesh i
          render_record (render_call.render_add_mesh hand_active_mesh.mesh
            (w.input_render.hand_material i) hand_active_mesh.root_transform (pinch_color f hand)) w
        else
          let w := input_hand_update_fallback_mesh f i w
          let hand_active_mesh := w.input_render.hand_fallback_mesh i
          render_record (render_call.render_add_mesh hand_active_mesh.mesh
            (w.input_render.hand_material i) hand_active_mesh.root_transform (pinch_color f hand)) w
      else w
    else if source = hand_source_simulated then
      let control := f.input_controller i
      if (control.tracked &&& f.button_state_active) ≠ 0 ∧
          w.input_render.controller_model i ≠ nullptr then
        let w := if w.input_render.model_is_fallback then input_controller_model_set xr i nullptr w
                 else w
        render_record (render_call.render_add_model (w.input_render.controller_model i)
          control.pose) w
      else w
    else if source = hand_source_overridden then
      let hand := f.input_hand i
      if (hand.tracked_state &&& f.button_state_active) ≠ 0 ∧
          w.input_render.hand_material i ≠ nullptr then
        let w := input_hand_update_fallback_mesh f i w
        render_record (render_call.render_add_mesh (w.input_render.hand_fallback_mesh i).mesh
          (w.input_render.hand_material i) (w.input_render.hand_fallback_mesh i).root_transform
          (pinch_color f hand)) w
      else w
    else w

/-- The function `input_render_step_late`: nothing unless the application has
focus, then the loop over `i = 0 .. handed_max - 1`. -/
def input_render_step_late (xr : xr_runtime) (f : frame_env) (w : sk_world) : sk_world :=
  if f.sk_app_focus ≠ app_focus_active then w
  else [handed_left, handed_right].foldl (fun w i => input_render_step_late_hand xr f i w) w

/-- A run of frames of `input_render_step_late`, each with its own
environment. -/
def input_render_frames (xr : xr_runtime) (frames : List frame_env) (w : sk_world) : sk_world :=
  frames.foldl (fun w f => input_render_step_late xr f w) w

/-! ## `linux.cpp`: resize -/

/-- A call `linux_resize` makes into the rest of the engine. -/
inductive linux_call where
  | log_diagf (width height : Int)
  | skg_swapchain_resize (width height : Int)
  | render_update_projection
  deriving DecidableEq, Repr

/-- The globals `linux_resize` touches: `sk_info.display_width`,
`sk_info.display_height`, and the calls made so far. -/
structure linux_state where
  display_width : Int
  display_height : Int
  calls : List linux_call
  deriving DecidableEq, Repr

/-- The function `linux_resize`. -/
def linux_resize (width height : Int) (s : linux_state) : linux_state :=
  if width = s.display_width ∧ height = s.display_height then s
  else
    let s := { s with display_width := width }
    let s := { s with display_height := height }
    let s := { s with calls := s.calls ++ [linux_call.log_diagf width height] }
    let s := { s with calls := s.calls ++
      [linux_call.skg_swapchain_resize s.display_width s.display_height] }
    { s with calls := s.calls ++ [linux_call.render_update_projection] }

/-! ## `linux.cpp`: the key map and the input thread -/

/-! The X11 key symbols the map names, with their values in `X11/keysymdef.h`. -/

/-- The X11 key symbol of that name. -/
def XK_space : Nat := 0x0020
/-- The X11 key symbol of that name. -/
def XK_0 : Nat := 0x0030
/-- The X11 key symbol of that name. -/
def XK_1 : Nat := 0x0031
/-- The X11 key symbol of that name. -/
def XK_2 : Nat := 0x0032
/-- The X11 key symbol of that name. -/
def XK_3 : Nat := 0x0033
/-- The X11 key symbol of that name. -/
def XK_4 : Nat := 0x0034
/-- The X11 key symbol of that name. -/
def XK_5 : Nat := 0x0035
/-- The X11 key symbol of that name. -/
def XK_6 : Nat := 0x0036
/-- The X11 key symbol of that name. -/
def XK_7 : Nat := 0x0037
/-- The X11 key symbol of that name. -/
def XK_8 : Nat := 0x0038
/-- The X11 key symbol of that name. -/
def XK_9 : Nat := 0x0039
/-- The X11 key symbol of that name. -/
def XK_A : Nat := 0x0041
/-- The X11 key symbol of that name. -/
def XK_B : Nat := 0x0042
/-- The X11 key symbol of that name. -/
def XK_C : Nat := 0x0043
/-- The X11 key symbol of that name. -/
def XK_D : Nat := 0x0044
/-- The X11 key symbol of that name. -/
def XK_E : Nat := 0x0045
/-- The X11 key symbol of that name. -/
def XK_F : Nat := 0x0046
/-- The X11 key symbol of that name. -/
def XK_G : Nat := 0x0047
/-- The X11 key symbol of that name. -/
def XK_H : Nat := 0x0048
/-- The X11 key symbol of that name. -/
def XK_I : Nat := 0x0049
/-- The X11 key symbol of that name. -/
def XK_J : Nat := 0x004a
/-- The X11 key symbol of that name. -/
def XK_K : Nat := 0x004b
/-- The X11 key symbol of that name. -/
def XK_L : Nat := 0x004c
/-- The X11 key symbol of that name. -/
def XK_M : Nat := 0x004d
/-- The X11 key symbol of that name. -/
def XK_N : Nat := 0x004e
/-- The X11 key symbol of that name. -/
def XK_O : Nat := 0x004f
/-- The X11 key symbol of that name. -/
def XK_P : Nat := 0x0050
/-- The X11 key symbol of that name. -/
def XK_Q : Nat := 0x0051
/-- The X11 key symbol of that name. -/
def XK_R : Nat := 0x0052
/-- The X11 key symbol of that name. -/
def XK_S : Nat := 0x0053
/-- The X11 key symbol of that name. -/
def XK_T : Nat := 0x0054
/-- The X11 key symbol of that name. -/
def XK_U : Nat := 0x0055
/-- The X11 key symbol of that name. -/
def XK_V : Nat := 0x0056
/-- The X11 key symbol of that name. -/
def XK_W : Nat := 0x0057
/-- The X11 key symbol of that name. -/
def XK_X : Nat := 0x0058
/-- The X11 key symbol of that name. -/
def XK_Y : Nat := 0x0059
/-- The X11 key symbol of that name. -/
def XK_Z : Nat := 0x005a
/-- The X11 key symbol of that name. -/
def XK_a : Nat := 0x0061
/-- The X11 key symbol of that name. -/
def XK_b : Nat := 0x0062
/-- The X11 key symbol of that name. -/
def XK_c : Nat := 0x0063
/-- The X11 key symbol of that name. -/
def XK_d : Nat := 0x0064
/-- The X11 key symbol of that name. -/
def XK_e : Nat := 0x0065
/-- The X11 key symbol of that name. -/
def XK_f : Nat := 0x0066
/-- The X11 key symbol of that name. -/
def XK_g : Nat := 0x0067
/-- The X11 key symbol of that name. -/
def XK_h : Nat := 0x0068
/-- The X11 key symbol of that name. -/
def XK_i : Nat := 0x0069
/-- The X11 key symbol of that name. -/
def XK_j : Nat := 0x006a
/-- The X11 key symbol of that name. -/
def XK_k : Nat := 0x006b
/-- The X11 key symbol of that name. -/
def XK_l : Nat := 0x006c
/-- The X11 key symbol of that name. -/
def XK_m : Nat := 0x006d
/-- The X11 key symbol of that name. -/
def XK_n : Nat := 0x006e
/-- The X11 key symbol of that name. -/
def XK_o : Nat := 0x006f
/-- The X11 key symbol of that name. -/
def XK_p : Nat := 0x0070
/-- The X11 key symbol of that name. -/
def XK_q : Nat := 0x0071
/-- The X11 key symbol of that name. -/
def XK_r : Nat := 0x0072
/-- The X11 key symbol of that name. -/
def XK_s : Nat := 0x0073
/-- The X11 key symbol of that name. -/
def XK_t : Nat := 0x0074
/-- The X11 key symbol of that name. -/
def XK_u : Nat := 0x0075
/-- The X11 key symbol of that name. -/
def XK_v : Nat := 0x0076
/-- The X11 key symbol of that name. -/
def XK_w : Nat := 0x0077
/-- The X11 key symbol of that name. -/
def XK_x : Nat := 0x0078
/-- The X11 key symbol of that name. -/
def XK_y : Nat := 0x0079
/-- The X11 key symbol of that name. -/
def XK_z : Nat := 0x007a
/-- The X11 key symbol of that name. -/
def XK_BackSpace : Nat := 0xff08
/-- The X11 key symbol of that name. -/
def XK_Tab : Nat := 0xff09
/-- The X11 key symbol of that name. -/
def XK_Return : Nat := 0xff0d
/-- The X11 key symbol of that name. -/
def XK_Escape : Nat := 0xff1b
/-- The X11 key symbol of that name. -/
def XK_Home : Nat := 0xff50
/-- The X11 key symbol of that name. -/
def XK_Left : Nat := 0xff51
/-- The X11 key symbol of that name. -/
def XK_Up : Nat := 0xff52
/-- The X11 key symbol of that name. -/
def XK_Right : Nat := 0xff53
/-- The X11 key symbol of that name. -/
def XK_Down : Nat := 0xff54
/-- The X11 key symbol of that name. -/
def XK_End : Nat := 0xff57
/-- The X11 key symbol of that name. -/
def XK_Print : Nat := 0xff61
/-- The X11 key symbol of that name. -/
def XK_Insert : Nat := 0xff63
/-- The X11 key symbol of that name. -/
def XK_KP_Space : Nat := 0xff80
/-- The X11 key symbol of that name. -/
def XK_KP_Home : Nat := 0xff95
/-- The X11 key symbol of that name. -/
def XK_KP_Left : Nat := 0xff96
/-- The X11 key symbol of that name. -/
def XK_KP_Up : Nat := 0xff97
/-- The X11 key symbol of that name. -/
def XK_KP_Right : Nat := 0xff98
/-- The X11 key symbol of that name. -/
def XK_KP_Down : Nat := 0xff99
/-- The X11 key symbol of that name. -/
def XK_KP_End : Nat := 0xff9c
/-- The X11 key symbol of that name. -/
def XK_KP_Insert : Nat := 0xff9e
/-- The X11 key symbol of that name. -/
def XK_KP_Delete : Nat := 0xff9f
/-- The X11 key symbol of that name. -/
def XK_KP_Multiply : Nat := 0xffaa
/-- The X11 key symbol of that name. -/
def XK_KP_Add : Nat := 0xffab
/-- The X11 key symbol of that name. -/
def XK_KP_Subtract : Nat := 0xffad
/-- The X11 key symbol of that name. -/
def XK_KP_Decimal : Nat := 0xffae
/-- The X11 key symbol of that name. -/
def XK_KP_Divide : Nat := 0xffaf
/-- The X11 key symbol of that name. -/
def XK_KP_0 : Nat := 0xffb0
/-- The X11 key symbol of that name. -/
def XK_KP_1 : Nat := 0xffb1
/-- The X11 key symbol of that name. -/
def XK_KP_2 : Nat := 0xffb2
/-- The X11 key symbol of that name. -/
def XK_KP_3 : Nat := 0xffb3
/-- The X11 key symbol of that name. -/
def XK_KP_4 : Nat := 0xffb4
/-- The X11 key symbol of that name. -/
def XK_KP_5 : Nat := 0xffb5
/-- The X11 key symbol of that name. -/
def XK_KP_6 : Nat := 0xffb6
/-- The X11 key symbol of that name. -/
def XK_KP_7 : Nat := 0xffb7
/-- The X11 key symbol of that name. -/
def XK_KP_8 : Nat := 0xffb8
/-- The X11 key symbol of that name. -/
def XK_KP_9 : Nat := 0xffb9
/-- The X11 key symbol of that name. -/
def XK_F1 : Nat := 0xffbe
/-- The X11 key symbol of that name. -/
def XK_F2 : Nat := 0xffbf
/-- The X11 key symbol of that name. -/
def XK_F3 : Nat := 0xffc0
/-- The X11 key symbol of that name. -/
def XK_F4 : Nat := 0xffc1
/-- The X11 key symbol of that name. -/
def XK_F5 : Nat := 0xffc2
/-- The X11 key symbol of that name. -/
def XK_F6 : Nat := 0xffc3
/-- The X11 key symbol of that name. -/
def XK_F7 : Nat := 0xffc4
/-- The X11 key symbol of that name. -/
def XK_F8 : Nat := 0xffc5
/-- The X11 key symbol of that name. -/
def XK_F9 : Nat := 0xffc6
/-- The X11 key symbol of that name. -/
def XK_F10 : Nat := 0xffc7
/-- The X11 key symbol of that name. -/
def XK_F11 : Nat := 0xffc8
/-- The X11 key symbol of that name. -/
def XK_F12 : Nat := 0xffc9
/-- The X11 key symbol of that name. -/
def XK_Shift_L : Nat := 0xffe1
/-- The X11 key symbol of that name. -/
def XK_Shift_R : Nat := 0xffe2
/-- The X11 key symbol of that name. -/
def XK_Control_L : Nat := 0xffe3
/-- The X11 key symbol of that name. -/
def XK_Control_R : Nat := 0xffe4
/-- The X11 key symbol of that name. -/
def XK_Caps_Lock : Nat := 0xffe5
/-- The X11 key symbol of that name. -/
def XK_Alt_L : Nat := 0xffe9
/-- The X11 key symbol of that name. -/
def XK_Alt_R : Nat := 0xffea
/-- The X11 key symbol of that name. -/
def XK_Super_L : Nat := 0xffeb
/-- The X11 key symbol of that name. -/
def XK_Super_R : Nat := 0xffec
/-- The X11 key symbol of that name. -/
def XK_Delete : Nat := 0xffff

/-- The enumerator `notakey` of `_linux_key_types`. -/
def notakey : Nat := 0
/-- The enumerator `keysym` of `_linux_key_types`. -/
def keysym : Nat := 1
/-- The enumerator `mouse` of `_linux_key_types`. -/
def mouse : Nat := 2
/-- The enumerator `capslock` of `_linux_key_types`. -/
def capslock : Nat := 3

/-- The struct `_linux_key_map`.  The array `xkey_or_key_mask[8]` is given by
its initialisers; C fills the elements that have none with zero, which is what
`slot` reads. -/
structure _linux_key_map where
  what : Nat
  xkey_or_key_mask : List Nat
  deriving DecidableEq, Repr

/-- The element `xkey_or_key_mask[j]`. -/
def _linux_key_map.slot (e : _linux_key_map) (j : Nat) : Nat :=
  e.xkey_or_key_mask.getD j 0

/-- The table `map[256]`, entry by entry; an entry `{0}` is `notakey` with no
symbols; each entry is `mk what xkey_or_key_mask`.  The engine key codes are the table indices, as its comments say. -/
def map : List _linux_key_map := [
  /- 0x00 -/ _linux_key_map.mk notakey [],
  /- 0x01 key_mouse_left -/ _linux_key_map.mk mouse [(1 : Nat) <<< 8],
  /- 0x02 key_mouse_right -/ _linux_key_map.mk mouse [(1 : Nat) <<< 9],
  /- 0x03 -/ _linux_key_map.mk notakey [],
  /- 0x04 key_mouse_center -/ _linux_key_map.mk mouse [(1 : Nat) <<< 10],
  /- 0x05 key_mouse_forward -/ _linux_key_map.mk mouse [(1 : Nat) <<< 11],
  /- 0x06 key_mouse_back -/ _linux_key_map.mk mouse [(1 : Nat) <<< 12],
  /- 0x07 -/ _linux_key_map.mk notakey [],
  /- 0x08 key_backspace -/ _linux_key_map.mk keysym [XK_BackSpace],
  /- 0x09 key_tab -/ _linux_key_map.mk keysym [XK_Tab],
  /- 0x0A -/ _linux_key_map.mk notakey [],
  /- 0x0B -/ _linux_key_map.mk notakey [],
  /- 0x0C -/ _linux_key_map.mk notakey [],
  /- 0x0D key_return -/ _linux_key_map.mk keysym [XK_Return],
  /- 0x0E -/ _linux_key_map.mk notakey [],
  /- 0x0F -/ _linux_key_map.mk notakey [],
  /- 0x10 key_shift -/ _linux_key_map.mk keysym [XK_Shift_L, XK_Shift_R],
  /- 0x11 key_ctrl -/ _linux_key_map.mk keysym [XK_Control_L, XK_Control_R],
  /- 0x12 key_alt -/ _linux_key_map.mk keysym [XK_Alt_L, XK_Alt_R],
  /- 0x13 -/ _linux_key_map.mk notakey [],
  /- 0x14 key_caps_lock -/ _linux_key_map.mk capslock [XK_Caps_Lock],
  /- 0x15 -/ _linux_key_map.mk notakey [],
  /- 0x16 -/ _linux_key_map.mk notakey [],
  /- 0x17 -/ _linux_key_map.mk notakey [],
  /- 0x18 -/ _linux_key_map.mk notakey [],
  /- 0x19 -/ _linux_key_map.mk notakey [],
  /- 0x1A -/ _linux_key_map.mk notakey [],
  /- 0x1B key_esc -/ _linux_key_map.mk keysym [XK_Escape],
  /- 0x1C -/ _linux_key_map.mk notakey [],
  /- 0x1D -/ _linux_key_map.mk notakey [],
  /- 0x1E -/ _linux_key_map.mk notakey [],
  /- 0x1F -/ _linux_key_map.mk notakey [],
  /- 0x20 key_space -/ _linux_key_map.mk keysym [XK_space, XK_KP_Space],
  /- 0x21 -/ _linux_key_map.mk notakey [],
  /- 0x22 -/ _linux_key_map.mk notakey [],
  /- 0x23 key_end -/ _linux_key_map.mk keysym [XK_End, XK_KP_End],
  /- 0x24 key_home -/ _linux_key_map.mk keysym [XK_Home, XK_KP_Home],
  /- 0x25 key_left -/ _linux_key_map.mk keysym [XK_Left, XK_KP_Left],
  /- 0x26 key_up -/ _linux_key_map.mk keysym [XK_Up, XK_KP_Up],
  /- 0x27 key_right -/ _linux_key_map.mk keysym [XK_Right, XK_KP_Right],
  /- 0x28 key_down -/ _linux_key_map.mk keysym [XK_Down, XK_KP_Down],
  /- 0x29 -/ _linux_key_map.mk notakey [],
  /- 0x2A key_printscreen -/ _linux_key_map.mk keysym [XK_Print],
  /- 0x2B -/ _linux_key_map.mk notakey [],
  /- 0x2C -/ _linux_key_map.mk notakey [],
  /- 0x2D key_insert -/ _linux_key_map.mk keysym [XK_Insert, XK_KP_Insert],
  /- 0x2E key_del -/ _linux_key_map.mk keysym [XK_Delete, XK_KP_Delete],
  /- 0x2F -/ _linux_key_map.mk notakey [],
  /- 0x30 key_0 -/ _linux_key_map.mk keysym [XK_0],
  /- 0x31 key_1 -/ _linux_key_map.mk keysym [XK_1],
  /- 0x32 key_2 -/ _linux_key_map.mk keysym [XK_2],
  /- 0x33 key_3 -/ _linux_key_map.mk keysym [XK_3],
  /- 0x34 key_4 -/ _linux_key_map.mk keysym [XK_4],
  /- 0x35 key_5 -/ _linux_key_map.mk keysym [XK_5],
  /- 0x36 key_6 -/ _linux_key_map.mk keysym [XK_6],
  /- 0x37 key_7 -/ _linux_key_map.mk keysym [XK_7],
  /- 0x38 key_8 -/ _linux_key_map.mk keysym [XK_8],
  /- 0x39 key_9 -/ _linux_key_map.mk keysym [XK_9],
  /- 0x3A -/ _linux_key_map.mk notakey [],
  /- 0x3B -/ _linux_key_map.mk notakey [],
  /- 0x3C -/ _linux_key_map.mk notakey [],
  /- 0x3D -/ _linux_key_map.mk notakey [],
  /- 0x3E -/ _linux_key_map.mk notakey [],
  /- 0x3F -/ _linux_key_map.mk notakey [],
  /- 0x40 -/ _linux_key_map.mk notakey [],
  /- 0x41 key_a -/ _linux_key_map.mk keysym [XK_A, XK_a],
  /- 0x42 key_b -/ _linux_key_map.mk keysym [XK_B, XK_b],
  /- 0x43 key_c -/ _linux_key_map.mk keysym [XK_C, XK_c],
  /- 0x44 key_d -/ _linux_key_map.mk keysym [XK_D, XK_d],
  /- 0x45 key_e -/ _linux_key_map.mk keysym [XK_E, XK_e],
  /- 0x46 key_f -/ _linux_key_map.mk keysym [XK_F, XK_f],
  /- 0x47 key_g -/ _linux_key_map.mk keysym [XK_G, XK_g],
  /- 0x48 key_h -/ _linux_key_map.mk keysym [XK_H, XK_h],
  /- 0x49 key_i -/ _linux_key_map.mk keysym [XK_I, XK_i],
  /- 0x4A key_j -/ _linux_key_map.mk keysym [XK_J, XK_j],
  /- 0x4B key_k -/ _linux_key_map.mk keysym [XK_K, XK_k],
  /- 0x4C key_l -/ _linux_key_map.mk keysym [XK_L, XK_l],
  /- 0x4D key_m -/ _linux_key_map.mk keysym [XK_M, XK_m],
  /- 0x4E key_n -/ _linux_key_map.mk keysym [XK_N, XK_n],
  /- 0x4F key_o -/ _linux_key_map.mk keysym [XK_O, XK_o],
  /- 0x50 key_p -/ _linux_key_map.mk keysym [XK_P, XK_p],
  /- 0x51 key_q -/ _linux_key_map.mk keysym [XK_Q, XK_q],
  /- 0x52 key_r -/ _linux_key_map.mk keysym [XK_R, XK_r],
  /- 0x53 key_s -/ _linux_key_map.mk keysym [XK_S, XK_s],
  /- 0x54 key_t -/ _linux_key_map.mk keysym [XK_T, XK_t],
  /- 0x55 key_u -/ _linux_key_map.mk keysym [XK_U, XK_u],
  /- 0x56 key_v -/ _linux_key_map.mk keysym [XK_V, XK_v],
  /- 0x57 key_w -/ _linux_key_map.mk keysym [XK_W, XK_w],
  /- 0x58 key_x -/ _linux_key_map.mk keysym [XK_X, XK_x],
  /- 0x59 key_y -/ _linux_key_map.mk keysym [XK_Y, XK_y],
  /- 0x5A key_z -/ _linux_key_map.mk keysym [XK_Z, XK_z],
  /- 0x5B key_lcmd -/ _linux_key_map.mk keysym [XK_Super_L],
  /- 0x5C key_rcmd -/ _linux_key_map.mk keysym [XK_Super_R],
  /- 0x5D -/ _linux_key_map.mk notakey [],
  /- 0x5E -/ _linux_key_map.mk notakey [],
  /- 0x5F -/ _linux_key_map.mk notakey [],
  /- 0x60 key_num0 -/ _linux_key_map.mk keysym [XK_KP_0],
  /- 0x61 key_num1 -/ _linux_key_map.mk keysym [XK_KP_1],
  /- 0x62 key_num2 -/ _linux_key_map.mk keysym [XK_KP_2],
  /- 0x63 key_num3 -/ _linux_key_map.mk keysym [XK_KP_3],
  /- 0x64 key_num4 -/ _linux_key_map.mk keysym [XK_KP_4],
  /- 0x65 key_num5 -/ _linux_key_map.mk keysym [XK_KP_5],
  /- 0x66 key_num6 -/ _linux_key_map.mk keysym [XK_KP_6],
  /- 0x67 key_num7 -/ _linux_key_map.mk keysym [XK_KP_7],
  /- 0x68 key_num8 -/ _linux_key_map.mk keysym [XK_KP_8],
  /- 0x69 key_num9 -/ _linux_key_map.mk keysym [XK_KP_9],
  /- 0x6A key_multiply -/ _linux_key_map.mk keysym [XK_KP_Multiply],
  /- 0x6B key_add -/ _linux_key_map.mk keysym [XK_KP_Add],
  /- 0x6C -/ _linux_key_map.mk notakey [],
  /- 0x6D key_subtract -/ _linux_key_map.mk keysym [XK_KP_Subtract],
  /- 0x6E key_decimal -/ _linux_key_map.mk keysym [XK_KP_Decimal],
  /- 0x6F key_divide -/ _linux_key_map.mk keysym [XK_KP_Divide],
  /- 0x70 key_f1 -/ _linux_key_map.mk keysym [XK_F1],
  /- 0x71 key_f2 -/ _linux_key_map.mk keysym [XK_F2],
  /- 0x72 key_f3 -/ _linux_key_map.mk keysym [XK_F3],
  /- 0x73 key_f4 -/ _linux_key_map.mk keysym [XK_F4],
  /- 0x74 key_f5 -/ _linux_key_map.mk keysym [XK_F5],
  /- 0x75 key_f6 -/ _linux_key_map.mk keysym [XK_F6],
  /- 0x76 key_f7 -/ _linux_key_map.mk keysym [XK_F7],
  /- 0x77 key_f8 -/ _linux_key_map.mk keysym [XK_F8],
  /- 0x78 key_f9 -/ _linux_key_map.mk keysym [XK_F9],
  /- 0x79 key_f10 -/ _linux_key_map.mk keysym [XK_F10],
  /- 0x7A key_f11 -/ _linux_key_map.mk keysym [XK_F11],
  /- 0x7B key_f12 -/ _linux_key_map.mk keysym [XK_F12],
  /- 0x7C -/ _linux_key_map.mk notakey [],
  /- 0x7D -/ _linux_key_map.mk notakey [],
  /- 0x7E -/ _linux_key_map.mk notakey [],
  /- 0x7F -/ _linux_key_map.mk notakey [],
  /- 0x80 -/ _linux_key_map.mk notakey [],
  /- 0x81 -/ _linux_key_map.mk notakey [],
  /- 0x82 -/ _linux_key_map.mk notakey [],
  /- 0x83 -/ _linux_key_map.mk notakey [],
  /- 0x84 -/ _linux_key_map.mk notakey [],
  /- 0x85 -/ _linux_key_map.mk notakey [],
  /- 0x86 -/ _linux_key_map.mk notakey [],
  /- 0x87 -/ _linux_key_map.mk notakey [],
  /- 0x88 -/ _linux_key_map.mk notakey [],
  /- 0x89 -/ _linux_key_map.mk notakey [],
  /- 0x8A -/ _linux_key_map.mk notakey [],
  /- 0x8B -/ _linux_key_map.mk notakey [],
  /- 0x8C -/ _linux_key_map.mk notakey [],
  /- 0x8D -/ _linux_key_map.mk notakey [],
  /- 0x8E -/ _linux_key_map.mk notakey [],
  /- 0x8F -/ _linux_key_map.mk notakey [],
  /- 0x90 -/ _linux_key_map.mk notakey [],
  /- 0x91 -/ _linux_key_map.mk notakey [],
  /- 0x92 -/ _linux_key_map.mk notakey [],
  /- 0x93 -/ _linux_key_map.mk notakey [],
  /- 0x94 -/ _linux_key_map.mk notakey [],
  /- 0x95 -/ _linux_key_map.mk notakey [],
  /- 0x96 -/ _linux_key_map.mk notakey [],
  /- 0x97 -/ _linux_key_map.mk notakey [],
  /- 0x98 -/ _linux_key_map.mk notakey [],
  /- 0x99 -/ _linux_key_map.mk notakey [],
  /- 0x9A -/ _linux_key_map.mk notakey [],
  /- 0x9B -/ _linux_key_map.mk notakey [],
  /- 0x9C -/ _linux_key_map.mk notakey [],
  /- 0x9D -/ _linux_key_map.mk notakey [],
  /- 0x9E -/ _linux_key_map.mk notakey [],
  /- 0x9F -/ _linux_key_map.mk notakey [],
  /- 0xA0 -/ _linux_key_map.mk notakey [],
  /- 0xA1 -/ _linux_key_map.mk notakey [],
  /- 0xA2 -/ _linux_key_map.mk notakey [],
  /- 0xA3 -/ _linux_key_map.mk notakey [],
  /- 0xA4 -/ _linux_key_map.mk notakey [],
  /- 0xA5 -/ _linux_key_map.mk notakey [],
  /- 0xA6 -/ _linux_key_map.mk notakey [],
  /- 0xA7 -/ _linux_key_map.mk notakey [],
  /- 0xA8 -/ _linux_key_map.mk notakey [],
  /- 0xA9 -/ _linux_key_map.mk notakey [],
  /- 0xAA -/ _linux_key_map.mk notakey [],
  /- 0xAB -/ _linux_key_map.mk notakey [],
  /- 0xAC -/ _linux_key_map.mk notakey [],
  /- 0xAD -/ _linux_key_map.mk notakey [],
  /- 0xAE -/ _linux_key_map.mk notakey [],
  /- 0xAF -/ _linux_key_map.mk notakey [],
  /- 0xB0 -/ _linux_key_map.mk notakey [],
  /- 0xB1 -/ _linux_key_map.mk notakey [],
  /- 0xB2 -/ _linux_key_map.mk notakey [],
  /- 0xB3 -/ _linux_key_map.mk notakey [],
  /- 0xB4 -/ _linux_key_map.mk notakey [],
  /- 0xB5 -/ _linux_key_map.mk notakey [],
  /- 0xB6 -/ _linux_key_map.mk notakey [],
  /- 0xB7 -/ _linux_key_map.mk notakey [],
  /- 0xB8 -/ _linux_key_map.mk notakey [],
  /- 0xB9 -/ _linux_key_map.mk notakey [],
  /- 0xBA -/ _linux_key_map.mk notakey [],
  /- 0xBB -/ _linux_key_map.mk notakey [],
  /- 0xBC -/ _linux_key_map.mk notakey [],
  /- 0xBD -/ _linux_key_map.mk notakey [],
  /- 0xBE -/ _linux_key_map.mk notakey [],
  /- 0xBF -/ _linux_key_map.mk notakey [],
  /- 0xC0 -/ _linux_key_map.mk notakey [],
  /- 0xC1 -/ _linux_key_map.mk notakey [],
  /- 0xC2 -/ _linux_key_map.mk notakey [],
  /- 0xC3 -/ _linux_key_map.mk notakey [],
  /- 0xC4 -/ _linux_key_map.mk notakey [],
  /- 0xC5 -/ _linux_key_map.mk notakey [],
  /- 0xC6 -/ _linux_key_map.mk notakey [],
  /- 0xC7 -/ _linux_key_map.mk notakey [],
  /- 0xC8 -/ _linux_key_map.mk notakey [],
  /- 0xC9 -/ _linux_key_map.mk notakey [],
  /- 0xCA -/ _linux_key_map.mk notakey [],
  /- 0xCB -/ _linux_key_map.mk notakey [],
  /- 0xCC -/ _linux_key_map.mk notakey [],
  /- 0xCD -/ _linux_key_map.mk notakey [],
  /- 0xCE -/ _linux_key_map.mk notakey [],
  /- 0xCF -/ _linux_key_map.mk notakey [],
  /- 0xD0 -/ _linux_key_map.mk notakey [],
  /- 0xD1 -/ _linux_key_map.mk notakey [],
  /- 0xD2 -/ _linux_key_map.mk notakey [],
  /- 0xD3 -/ _linux_key_map.mk notakey [],
  /- 0xD4 -/ _linux_key_map.mk notakey [],
  /- 0xD5 -/ _linux_key_map.mk notakey [],
  /- 0xD6 -/ _linux_key_map.mk notakey [],
  /- 0xD7 -/ _linux_key_map.mk notakey [],
  /- 0xD8 -/ _linux_key_map.mk notakey [],
  /- 0xD9 -/ _linux_key_map.mk notakey [],
  /- 0xDA -/ _linux_key_map.mk notakey [],
  /- 0xDB -/ _linux_key_map.mk notakey [],
  /- 0xDC -/ _linux_key_map.mk notakey [],
  /- 0xDD -/ _linux_key_map.mk notakey [],
  /- 0xDE -/ _linux_key_map.mk notakey [],
  /- 0xDF -/ _linux_key_map.mk notakey [],
  /- 0xE0 -/ _linux_key_map.mk notakey [],
  /- 0xE1 -/ _linux_key_map.mk notakey [],
  /- 0xE2 -/ _linux_key_map.mk notakey [],
  /- 0xE3 -/ _linux_key_map.mk notakey [],
  /- 0xE4 -/ _linux_key_map.mk notakey [],
  /- 0xE5 -/ _linux_key_map.mk notakey [],
  /- 0xE6 -/ _linux_key_map.mk notakey [],
  /- 0xE7 -/ _linux_key_map.mk notakey [],
  /- 0xE8 -/ _linux_key_map.mk notakey [],
  /- 0xE9 -/ _linux_key_map.mk notakey [],
  /- 0xEA -/ _linux_key_map.mk notakey [],
  /- 0xEB -/ _linux_key_map.mk notakey [],
  /- 0xEC -/ _linux_key_map.mk notakey [],
  /- 0xED -/ _linux_key_map.mk notakey [],
  /- 0xEE -/ _linux_key_map.mk notakey [],
  /- 0xEF -/ _linux_key_map.mk notakey [],
  /- 0xF0 -/ _linux_key_map.mk notakey [],
  /- 0xF1 -/ _linux_key_map.mk notakey [],
  /- 0xF2 -/ _linux_key_map.mk notakey [],
  /- 0xF3 -/ _linux_key_map.mk notakey [],
  /- 0xF4 -/ _linux_key_map.mk notakey [],
  /- 0xF5 -/ _linux_key_map.mk notakey [],
  /- 0xF6 -/ _linux_key_map.mk notakey [],
  /- 0xF7 -/ _linux_key_map.mk notakey [],
  /- 0xF8 -/ _linux_key_map.mk notakey [],
  /- 0xF9 -/ _linux_key_map.mk notakey [],
  /- 0xFA -/ _linux_key_map.mk notakey [],
  /- 0xFB -/ _linux_key_map.mk notakey [],
  /- 0xFC -/ _linux_key_map.mk notakey [],
  /- 0xFD -/ _linux_key_map.mk notakey [],
  /- 0xFE -/ _linux_key_map.mk notakey [],
  /- 0xFF key_MAX -/ _linux_key_map.mk keysym [(0x69 : Nat)]]

/-- The entry `map[i]`. -/
def map_entry (i : Nat) : _linux_key_map :=
  List.getD map i { what := notakey, xkey_or_key_mask := [] }

/-- The engine key code `key_MAX`, the last index of the table. -/
def key_MAX : Nat := 0xFF
/-- The engine key code `key_caps_lock`, index 0x14 of the table. -/
def key_caps_lock : Nat := 0x14
/-- The engine key code `key_shift`, index 0x10 of the table. -/
def key_shift : Nat := 0x10
/-- The engine key code `key_mouse_left`, index 0x01 of the table. -/
def key_mouse_left : Nat := 0x01
/-- The engine key code `key_mouse_right`, index 0x02 of the table. -/
def key_mouse_right : Nat := 0x02
/-- The engine key code `key_mouse_center`, index 0x04 of the table. -/
def key_mouse_center : Nat := 0x04
/-- The engine key code `key_mouse_forward`, index 0x05 of the table. -/
def key_mouse_forward : Nat := 0x05
/-- The engine key code `key_mouse_back`, index 0x06 of the table. -/
def key_mouse_back : Nat := 0x06

/-- What the X server answers during one iteration of the event loop:
`XQueryKeymap` (the 32 bytes of `keys_return`, each as its bit pattern),
`XKeysymToKeycode`, the `led_mask` of `XGetKeyboardControl`, and the name
`XGetAtomName` gives for the message type of a client message. -/
structure x_server where
  keys_return : Nat → Nat
  XKeysymToKeycode : Nat → Nat
  led_mask : Nat
  XGetAtomName : String

/-- The events the loop tells apart, with the fields it reads. -/
inductive XEvent where
  | KeyPress
  | KeyRelease
  | ButtonPress (button : Nat)
  | ButtonRelease (button : Nat)
  | MotionNotify (x y : Int)
  | ConfigureNotify (width height : Int)
  | ClientMessage
  | other
  deriving DecidableEq, Repr

/-- A C `float` kept as the expression that computes it: a value the code was
given, `a + c` and `a - c` for the C `a += c` and `a -= c`.  Float arithmetic
rounds, so the sums are never evaluated. -/
inductive float_expr where
  | value (code : Int)
  | add (a : float_expr) (c : Int)
  | sub (a : float_expr) (c : Int)
  deriving DecidableEq, Repr

/-- The globals of the input thread: `_linux_pressed_sk_keys`, the float
`scrollwheel`, `mouseX`, `mouseY`, the display state `linux_resize` works on,
whether `sk_quit` was called, and whether the thread function has returned. -/
structure linux_input_state where
  _linux_pressed_sk_keys : Nat → Bool
  scrollwheel : float_expr
  mouseX : Int
  mouseY : Int
  display : linux_state
  sk_quit_called : Bool
  returned : Bool

/-- The test `!!(keys_return[kc2 >> 3] & (1 << (kc2 & 7)))` of line 191. -/
def keymap_test (x : x_server) (kc2 : Nat) : Bool :=
  decide (x.keys_return (kc2 >>> 3) &&& (1 <<< (kc2 &&& 7)) ≠ 0)

/-- The inner loop `for (int j = 0; j < 7; j++)` of lines 186-196 for key `i`,
run over the remaining values of `j`.  The state is the local `isPressed` and
the array `_linux_pressed_sk_keys`; both `break`s end the recursion.
`KeyCode` is an unsigned char, hence the `% 256`. -/
def key_symbol_loop (x : x_server) (i : Nat) :
    List Nat → Bool × (Nat → Bool) → Bool × (Nat → Bool)
  | [], st => st
  | j :: js, st =>
    if (map_entry i).slot j = 0 then st
    else
      let kc2 := x.XKeysymToKeycode ((map_entry i).slot j) % 256
      let isPressed := keymap_test x kc2
      if isPressed = true then (isPressed, Function.update st.2 i true)
      else key_symbol_loop x i js (isPressed, st.2)

/-- The body of the loop `for (int i = 0; i < key_MAX; i++)` (lines 181-199). -/
def key_scan_one (x : x_server) (i : Nat) (pressed : Nat → Bool) : Nat → Bool :=
  if (map_entry i).what ≠ keysym then pressed
  else
    let r := key_symbol_loop x i (List.range 7) (false, pressed)
    if r.1 = false then Function.update r.2 i false else r.2

/-- Lines 177-200: the keyboard branch of the event loop. -/
def linux_key_scan (x : x_server) (pressed : Nat → Bool) : Nat → Bool :=
  (List.range key_MAX).foldl (fun p i => key_scan_one x i p) pressed

/-- The `switch` of the `ButtonPress` branch (lines 202-214). -/
def linux_button_press (button : Nat) (s : linux_input_state) : linux_input_state :=
  if button = 1 then
    { s with _linux_pressed_sk_keys := Function.update s._linux_pressed_sk_keys key_mouse_left true }
  else if button = 2 then
    { s with _linux_pressed_sk_keys := Function.update s._linux_pressed_sk_keys key_mouse_center true }
  else if button = 3 then
    { s with _linux_pressed_sk_keys := Function.update s._linux_pressed_sk_keys key_mouse_right true }
  else if button = 4 then { s with scrollwheel := float_expr.add s.scrollwheel 120 }
  else if button = 5 then { s with scrollwheel := float_expr.sub s.scrollwheel 120 }
  else if button = 9 then
    { s with _linux_pressed_sk_keys := Function.update s._linux_pressed_sk_keys key_mouse_forward true }
  else if button = 8 then
    { s with _linux_pressed_sk_keys := Function.update s._linux_pressed_sk_keys key_mouse_back true }
  else s

/-- The `switch` of the `ButtonRelease` branch (lines 216-225). -/
def linux_button_release (button : Nat) (s : linux_input_state) : linux_input_state :=
  if button = 1 then
    { s with _linux_pressed_sk_keys := Function.update s._linux_pressed_sk_keys key_mouse_left false }
  else if button = 2 then
    { s with _linux_pressed_sk_keys := Function.update s._linux_pressed_sk_keys key_mouse_center false }
  else if button = 3 then
    { s with _linux_pressed_sk_keys := Function.update s._linux_pressed_sk_keys key_mouse_right false }
  else if button = 9 then
    { s with _linux_pressed_sk_keys := Function.update s._linux_pressed_sk_keys key_mouse_forward false }
  else if button = 8 then
    { s with _linux_pressed_sk_keys := Function.update s._linux_pressed_sk_keys key_mouse_back false }
  else s

/-- Lines 238-240: the caps lock flag is rewritten from the keyboard LEDs. -/
def linux_caps_lock (x : x_server) (s : linux_input_state) : linux_input_state :=
  { s with _linux_pressed_sk_keys :=
      Function.update s._linux_pressed_sk_keys key_caps_lock (decide (x.led_mask &&& 1 ≠ 0)) }

/-- One iteration of the `while` loop of `linux_input_pthread` (lines 174-241)
for the event `XNextEvent` delivered. -/
def linux_input_pthread_step (x : x_server) (event : XEvent) (s : linux_input_state) :
    linux_input_state :=
  match event with
  | XEvent.KeyPress | XEvent.KeyRelease =>
    linux_caps_lock x { s with _linux_pressed_sk_keys := linux_key_scan x s._linux_pressed_sk_keys }
  | XEvent.ButtonPress button => linux_caps_lock x (linux_button_press button s)
  | XEvent.ButtonRelease button => linux_caps_lock x (linux_button_release button s)
  | XEvent.MotionNotify mx my => linux_caps_lock x { s with mouseX := mx, mouseY := my }
  | XEvent.ConfigureNotify width height =>
    linux_caps_lock x { s with display := linux_resize width height s.display }
  | XEvent.ClientMessage =>
    if x.XGetAtomName = "WM_PROTOCOLS" then { s with sk_quit_called := true, returned := true }
    else linux_caps_lock x s
  | XEvent.other => linux_caps_lock x s

/-- Whether the bit of key code `kc` is set in the queried keyboard state: bit
`kc mod 8` of byte `kc div 8` of `keys_return`. -/
def keycode_bit_set (x : x_server) (kc : Nat) : Bool :=
  (x.keys_return (kc / 8)).testBit (kc % 8)

/-- The platform key symbols listed for an entry: its initialisers up to the
first zero, of which the loop reads at most seven. -/
def listed_symbols (e : _linux_key_map) : List Nat :=
  ((List.range 7).map e.slot).takeWhile (fun sym => decide (sym ≠ 0))

/-- An X server on which the key symbols in `down` have the key codes 50, 51,
... in order of the list, all held, and no other key is held. -/
def sample_x_server (down : List Nat) : x_server :=
  { keys_return := fun b =>
      if b = 6 then (List.range down.length).foldl (fun acc k => acc ||| (1 <<< ((50 + k) % 8 ))) 0
      else 0
    XKeysymToKeycode := fun sym => if sym ∈ down then 50 + down.indexOf sym else 0
    led_mask := 0
    XGetAtomName := "" }

/-- An input thread state in which nothing is pressed. -/
def sample_input_state : linux_input_state :=
  { _linux_pressed_sk_keys := fun _ => false
    scrollwheel := float_expr.value 0
    mouseX := 0
    mouseY := 0
    display := { display_width := 1280, display_height := 720, calls := [] }
    sk_quit_called := false
    returned := false }

/-! ## Sample worlds and runtimes -/

/-- The zeroed `local` (`local = {}`) with the render mode of `input_render_init`. -/
def sample_render_state : input_render_state_t :=
  { render_mode := 1
    hand_fallback_mesh := fun _ => { root_transform := matrix.value 0, mesh := 0, verts := 0, inds := 0 }
    hand_articulated_mesh := fun _ => { root_transform := matrix.value 0, mesh := 0, verts := 0, inds := 0 }
    hand_material := fun _ => nullptr
    controller_model := fun _ => nullptr
    model_is_fallback := false }

/-- A world at start-up: the two bundled controllers are models 1 and 2, the
application owns model 3, nothing is stored yet.  The argument says whether the
runtime's controller-model extension is active. -/
def sample_world (MSFT_controller_model : Bool) : sk_world :=
  { input_render := sample_render_state
    sk_default_controller_l := 1
    sk_default_controller_r := 2
    MSFT_controller_model := MSFT_controller_model
    MSFT_hand_tracking_mesh := false
    models :=
      { refs := fun m => if m = 1 ∨ m = 2 ∨ m = 3 then 1 else 0
        id := fun m =>
          if m = 1 then "default/model_controller_l"
          else if m = 2 then "default/model_controller_r"
          else if m = 3 then "app/wand" else ""
        root_local := fun _ => matrix.value 0
        nodes_used := fun _ => 1
        count := 3 }
    material_refs := fun _ => 0
    xr_log := []
    asset_log := []
    render_log := [] }

/-- A runtime that reports model key 42 for both hands and hands out a three
byte blob for it. -/
def sample_runtime : xr_runtime :=
  { xrGetControllerModelKeyMSFT := fun _ _ => (0, 42)
    xrLoadControllerModelMSFT := fun _ _ buffer_capacity_input =>
      if buffer_capacity_input = 0 then { result := 0, buffer_count_output := 3, buffer := [] }
      else { result := 0, buffer_count_output := 3, buffer := [103, 108, 84] } }

/-- A runtime that reports model key 42 and a size for it, but fails to fill
the buffer. -/
def sample_runtime_fill_fails : xr_runtime :=
  { xrGetControllerModelKeyMSFT := fun _ _ => (0, 42)
    xrLoadControllerModelMSFT := fun _ _ buffer_capacity_input =>
      if buffer_capacity_input = 0 then { result := 0, buffer_count_output := 3, buffer := [] }
      else { result := -1, buffer_count_output := 0, buffer := [] } }

/-- A frame in which the application has focus and both hands are visible,
tracked, simulated controllers; `button_state_active` is `1 << 0`. -/
def sample_frame_controllers : frame_env :=
  { button_state_active := 1
    sk_app_focus := app_focus_active
    input_hand_get_visible := fun _ => true
    input_hand_source := fun _ => hand_source_simulated
    input_hand := fun _ => { fingers := 0, tracked_state := 0, pinch_state := 0 }
    input_controller := fun _ => { pose := { position := 0, orientation := 0 }, tracked := 1 }
    hand_oxra_update_system_mesh := fun _ m => m
    input_gen_fallback_mesh := fun _ _ verts inds => (verts, inds) }

/-- Whether a call of the render pass is a draw submission (`render_add_mesh`
or `render_add_model`). -/
def is_draw : render_call → Bool
  | render_call.render_add_mesh _ _ _ _ => true
  | render_call.render_add_model _ _ => true
  | _ => false

/-- The draws submitted so far, in order. -/
def draw_calls (w : sk_world) : List render_call :=
  w.render_log.filter is_draw

/-- The condition under which the render pass has nothing to draw for hand `i`
in world `w`: for an articulated or overridden hand the hand's tracked state
lacks the active bit or no hand material is set; for a simulated hand the
controller's tracked state lacks the active bit or no controller model is
set; a hand whose source is `hand_source_none` has no branch that draws,
whatever is tracked or set; and so has a hand that is not visible. -/
def nothing_to_draw (f : frame_env) (w : sk_world) (i : handed_) : Prop :=
  ((f.input_hand_source i = hand_source_articulated ∨
      f.input_hand_source i = hand_source_overridden) ∧
    ((f.input_hand i).tracked_state &&& f.button_state_active = 0 ∨
      w.input_render.hand_material i = nullptr)) ∨
  (f.input_hand_source i = hand_source_simulated ∧
    ((f.input_controller i).tracked &&& f.button_state_active = 0 ∨
      w.input_render.controller_model i = nullptr)) ∨
  f.input_hand_source i = hand_source_none ∨
  f.input_hand_get_visible i = false

/-- A frame in which the application has focus and both hands are visible and
tracked, hands and controllers alike, but have no source
(`hand_source_none`). -/
def sample_frame_no_source : frame_env :=
  { button_state_active := 1
    sk_app_focus := app_focus_active
    input_hand_get_visible := fun _ => true
    input_hand_source := fun _ => hand_source_none
    input_hand := fun _ => { fingers := 0, tracked_state := 1, pinch_state := 0 }
    input_controller := fun _ => { pose := { position := 0, orientation := 0 }, tracked := 1 }
    hand_oxra_update_system_mesh := fun _ m => m
    input_gen_fallback_mesh := fun _ _ verts inds => (verts, inds) }

/-- The sample world with material 5 assigned to both hands. -/
def sample_world_with_material : sk_world :=
  { sample_world false with
    input_render := { sample_render_state with hand_material := fun _ => 5 }
    material_refs := fun m => if m = 5 then 2 else 0 }

/-- A frame in which the application has focus and both hands are visible
articulated hands that are not tracked (`tracked_state` is
`button_state_just_inactive`, `1 << 1`). -/
def sample_frame_untracked_hands : frame_env :=
  { button_state_active := 1
    sk_app_focus := app_focus_active
    input_hand_get_visible := fun _ => true
    input_hand_source := fun _ => hand_source_articulated
    input_hand := fun _ => { fingers := 0, tracked_state := 2, pinch_state := 0 }
    input_controller := fun _ => { pose := { position := 0, orientation := 0 }, tracked := 0 }
    hand_oxra_update_system_mesh := fun _ m => m
    input_gen_fallback_mesh := fun _ _ verts inds => (verts, inds) }

/-! ## `linux.cpp`: initialisation -/

/-- What Xlib and GLX answer during `linux_init`: the `Display*` of
`XOpenDisplay` (`0` is null), the array `glXChooseFBConfig` returns (the empty
list stands for the null pointer it returns when no configuration matches, a
non-null result has at least one element), the `XVisualInfo*` of
`glXGetVisualFromFBConfig` for a configuration, and the `XSizeHints*` of
`XAllocSizeHints`. -/
structure x_init_env where
  XOpenDisplay : Nat
  glXChooseFBConfig : List Nat
  glXGetVisualFromFBConfig : Nat → Nat
  XAllocSizeHints : Nat

/-- A call `linux_init` makes that leaves a trace outside its own globals. -/
inductive linux_init_call where
  | signal_SIGINT
  | XInitThreads
  | log_fail_reason (confidence : Nat) (fail_reason : String)
  | log_err (text : String)
  | XCreateColormap
  | XCreateWindow (width height : Nat)
  | XSetWMNormalHints (min_width min_height : Nat)
  | XSetWMSizeHints (min_width min_height : Nat)
  | XMapWindow
  | XStoreName
  | skg_setup_xlib
  deriving DecidableEq, Repr

/-- The globals `linux_init` writes (`dpy`, `fbconfig`, `vi`) and the calls it
has made. -/
structure linux_init_state where
  dpy : Nat
  fbconfig : Nat
  vi : Nat
  calls : List linux_init_call
  deriving DecidableEq, Repr

/-- How a run can end other than by returning. -/
inductive fault where
  | null_dereference
  deriving DecidableEq, Repr

/-- Lines 280-303 of `linux_init`: the colormap, the window with its size
hints, and the hand-over to the graphics backend; returns `true`. -/
def linux_init_window (x : x_init_env) (s : linux_init_state) : Bool × linux_init_state :=
  let s := { s with calls := s.calls ++ [linux_init_call.XCreateColormap] }
  let s := { s with calls := s.calls ++ [linux_init_call.XCreateWindow 1280 720] }
  let s :=
    if x.XAllocSizeHints = nullptr then
      { s with calls := s.calls ++ [linux_init_call.log_err "XAllocSizeHints failed."] }
    else
      { s with calls := s.calls ++
          [linux_init_call.XSetWMNormalHints 100 100, linux_init_call.XSetWMSizeHints 100 100] }
  let s := { s with calls := s.calls ++
    [linux_init_call.XMapWindow, linux_init_call.XStoreName, linux_init_call.skg_setup_xlib] }
  (true, s)

/-- The function `linux_init`.  The expression `*glXChooseFBConfig(...)` of
line 272 reads through the returned pointer; when that pointer is null the run
ends in a null dereference. -/
def linux_init (x : x_init_env) (s : linux_init_state) : Except fault (Bool × linux_init_state) :=
  let s := { s with calls := s.calls ++
    [linux_init_call.signal_SIGINT, linux_init_call.XInitThreads] }
  let s := { s with dpy := x.XOpenDisplay }
  if s.dpy = nullptr then
    Except.ok (false,
      { s with calls := s.calls ++ [linux_init_call.log_fail_reason 90 "Cannot connect to X server"] })
  else
    match x.glXChooseFBConfig with
    | [] => Except.error fault.null_dereference
    | config :: _ =>
      let s := { s with fbconfig := config }
      let s := { s with vi := x.glXGetVisualFromFBConfig s.fbconfig }
      if s.vi = nullptr then
        Except.ok (false,
          { s with calls := s.calls ++
              [linux_init_call.log_fail_reason 90 "No appropriate GLX visual found"] })
      else Except.ok (linux_init_window x s)

/-- The globals before `linux_init` runs. -/
def sample_init_state : linux_init_state :=
  { dpy := 0, fbconfig := 0, vi := 0, calls := [] }

/-- An X server that accepts the connection but has no framebuffer
configuration matching `fb_att`: `glXChooseFBConfig` returns null. -/
def sample_x_no_fbconfig : x_init_env :=
  { XOpenDisplay := 1
    glXChooseFBConfig := []
    glXGetVisualFromFBConfig := fun _ => 0
    XAllocSizeHints := 1 }

/-- An X server that has a matching configuration with a visual. -/
def sample_x_ready : x_init_env :=
  { XOpenDisplay := 1
    glXChooseFBConfig := [7]
    glXGetVisualFromFBConfig := fun _ => 3
    XAllocSizeHints := 1 }

/-! ## `input_render.cpp`: the hand material -/

/-- Modelled from the spec: `material_addref` of the asset layer (`addref`:
the reference count goes up by one). -/
def material_addref (material : material_t) (w : sk_world) : sk_world :=
  { w with
    material_refs := Function.update w.material_refs material (w.material_refs material + 1)
    asset_log := w.asset_log ++ [asset_op.material_addref material] }

/-- Modelled from the spec: `material_release` of the asset layer (`release`
decrements the count and frees at zero); releasing `nullptr` does nothing, as
`input_hand_material` relies on when the slot is still empty. -/
def material_release (material : material_t) (w : sk_world) : sk_world :=
  if material = nullptr then w
  else
    { w with
      material_refs := Function.update w.material_refs material (w.material_refs material - 1)
      asset_log := w.asset_log ++ [asset_op.material_release material] }

/-- Lines 173-174 of `input_hand_material`:
`if (material != nullptr) material_addref(material);`. -/
def input_hand_material_acquire (material : material_t) (w : sk_world) : sk_world :=
  if material ≠ nullptr then material_addref material w else w

/-- Line 175 of `input_hand_material`:
`material_release(local.hand_material[hand]);`. -/
def input_hand_material_release (hand : handed_) (w : sk_world) : sk_world :=
  material_release (w.input_render.hand_material hand) w

/-- Line 177 of `input_hand_material`: `local.hand_material[hand] = material;`. -/
def input_hand_material_store (hand : handed_) (material : material_t) (w : sk_world) : sk_world :=
  { w with input_render :=
      { w.input_render with
        hand_material := Function.update w.input_render.hand_material hand material } }

/-- The body of `input_hand_material` below the `handed_max` test (lines
173-177), for one hand: its three statements in order. -/
def input_hand_material_hand (hand : handed_) (material : material_t) (w : sk_world) : sk_world :=
  input_hand_material_store hand material
    (input_hand_material_release hand (input_hand_material_acquire material w))

/-- The function `input_hand_material`.  The two recursive calls of the
`handed_max` case are calls of the one-hand body, since neither `handed_left`
nor `handed_right` is `handed_max`. -/
def input_hand_material (hand : handed_) (material : material_t) (w : sk_world) : sk_world :=
  if hand = handed_max then
    let w := input_hand_material_hand handed_left material w
    input_hand_material_hand handed_right material w
  else input_hand_material_hand hand material w

/-- The number of hand slots (left, right) of an array that hold handle `m`. -/
def slot_count (arr : handed_ → Nat) (m : Nat) : Nat :=
  (if arr handed_left = m then 1 else 0) + (if arr handed_right = m then 1 else 0)

/-- The ownership discipline for hand materials: every non-null material has at
least one reference for each hand slot that stores it. -/
def materials_owned (w : sk_world) : Prop :=
  ∀ m, m ≠ nullptr → slot_count w.input_render.hand_material m ≤ w.material_refs m

/-- The ownership discipline for controller models: every non-null model has
at least one reference for each hand slot that stores it. -/
def models_owned (w : sk_world) : Prop :=
  ∀ m, m ≠ nullptr → slot_count w.input_render.controller_model m ≤ w.models.refs m

/-- The sample world in which the left hand stores material 5 with the single
reference of that slot, the right hand stores nothing, and the application
holds one reference to material 6. -/
def sample_world_two_materials : sk_world :=
  { sample_world false with
    input_render :=
      { sample_render_state with
        hand_material := fun h => if h = handed_left then 5 else nullptr }
    material_refs := fun m => if m = 5 ∨ m = 6 then 1 else 0 }

/-- The sample world in which the left hand stores model 3 with the single
reference of that slot and the right hand stores nothing; the application holds
one reference to each of the models 1 and 2. -/
def sample_world_stored_model : sk_world :=
  { sample_world false with
    input_render :=
      { sample_render_state with
        controller_model := fun h => if h = handed_left then 3 else nullptr } }

/-- A world outside the ownership discipline: both hands store material 5,
which has a single reference; the application holds one reference to
material 6. -/
def sample_world_shared_material : sk_world :=
  { sample_world false with
    input_render := { sample_render_state with hand_material := fun _ => 5 }
    material_refs := fun m => if m = 5 ∨ m = 6 then 1 else 0 }

/-- The sample world in which the left hand stores material 5, whose only
reference is that one. -/
def sample_world_single_material : sk_world :=
  { sample_world false with
    input_render :=
      { sample_render_state with
        hand_material := fun h => if h = handed_left then 5 else nullptr }
    material_refs := fun m => if m = 5 then 1 else 0 }

/-! ## What the runtime answers during one resolution

The three answers the runtime gives when `input_controller_model_set(hand,
nullptr)` is entered in world `w`, each at the history the call is made at. -/

/-- The answer to the key query (line 196): the `XrResult` and the model key. -/
def key_query (xr : xr_runtime) (hand : handed_) (w : sk_world) : Int × Nat :=
  xr.xrGetControllerModelKeyMSFT (w.xr_log ++ [xr_call.xrStringToPath (hand_path hand)])
    (hand_path hand)

/-- The answer to the buffer-size query (line 204), made for the key of
`key_query`. -/
def size_query (xr : xr_runtime) (hand : handed_) (w : sk_world) : xr_load_result :=
  xr.xrLoadControllerModelMSFT
    (w.xr_log ++ [xr_call.xrStringToPath (hand_path hand)] ++
      [xr_call.xrGetControllerModelKeyMSFT (hand_path hand)])
    (key_query xr hand w).2 0

/-- The answer to the buffer-fill call (line 206), made with the capacity
`size_query` reported. -/
def fill_query (xr : xr_runtime) (hand : handed_) (w : sk_world) : xr_load_result :=
  xr.xrLoadControllerModelMSFT
    (w.xr_log ++ [xr_call.xrStringToPath (hand_path hand)] ++
      [xr_call.xrGetControllerModelKeyMSFT (hand_path hand)] ++
      [xr_call.xrLoadControllerModelMSFT (key_query xr hand w).2 0])
    (key_query xr hand w).2 (size_query xr hand w).buffer_count_output

/-! ## Frame lemmas for the primitives -/

section frame

variable (xr : xr_runtime) (hand : handed_) (model : model_t) (w : sk_world)

@[simp]
theorem model_addref_input_render :
    (model_addref model w).input_render = w.input_render := rfl

@[simp]
theorem model_release_input_render :
    (model_release model w).input_render = w.input_render := by
  unfold model_release; split <;> rfl

@[simp]
theorem set_controller_model_get (h2 : handed_) :
    (set_controller_model hand model w).input_render.controller_model h2 =
      if h2 = hand then model else w.input_render.controller_model h2 := by
  simp [set_controller_model, Function.update_apply]

@[simp]
theorem set_controller_model_is_fallback :
    (set_controller_model hand model w).input_render.model_is_fallback =
      w.input_render.model_is_fallback := rfl

@[simp]
theorem set_model_is_fallback_controller_model (b : Bool) :
    (set_model_is_fallback b w).input_render.controller_model = w.input_render.controller_model :=
  rfl

@[simp]
theorem set_model_is_fallback_is_fallback (b : Bool) :
    (set_model_is_fallback b w).input_render.model_is_fallback = b := rfl

/-- Loading from the runtime never touches `local`. -/
theorem controller_model_load_input_render (model_key : Nat) (key_str : String) :
    (controller_model_load xr hand model_key key_str w).2.input_render = w.input_render := by
  unfold controller_model_load
  dsimp only
  split_ifs <;> rfl

/-- Loading from the runtime never touches the bundled defaults. -/
theorem controller_model_load_default (h2 : handed_) (model_key : Nat) (key_str : String) :
    default_controller h2 (controller_model_load xr hand model_key key_str w).2 =
      default_controller h2 w := by
  unfold controller_model_load
  dsimp only
  split_ifs <;> rfl

/-- The runtime path never touches `local`. -/
theorem controller_model_from_runtime_input_render :
    (controller_model_from_runtime xr hand w).2.input_render = w.input_render := by
  unfold controller_model_from_runtime
  dsimp only
  split_ifs <;> first | rfl | exact controller_model_load_input_render _ _ _ _ _

/-- The runtime path never touches the bundled defaults. -/
theorem controller_model_from_runtime_default (h2 : handed_) :
    default_controller h2 (controller_model_from_runtime xr hand w).2 = default_controller h2 w := by
  unfold controller_model_from_runtime
  dsimp only
  split_ifs <;> first | rfl | exact controller_model_load_default _ _ _ _ _ _

/-- Resolution leaves the stored handles alone. -/
theorem controller_model_resolve_controller_model :
    (controller_model_resolve xr hand model w).2.input_render.controller_model =
      w.input_render.controller_model := by
  unfold controller_model_resolve
  simp only []
  split_ifs <;> simp [controller_model_from_runtime_input_render]

/-- Resolution sets the flag exactly when the argument is null. -/
theorem controller_model_resolve_is_fallback :
    (controller_model_resolve xr hand model w).2.input_render.model_is_fallback =
      decide (model = nullptr) := by
  unfold controller_model_resolve
  simp only []
  split_ifs <;> simp_all

/-- After the replacement the stored handle of this hand is the new one. -/
theorem controller_model_store_get :
    (controller_model_store hand model w).input_render.controller_model hand = model := by
  unfold controller_model_store
  split_ifs with h
  · simp
  · exact (not_not.mp h).symm

/-- The replacement leaves the other hand alone. -/
theorem controller_model_store_other (h2 : handed_) (hne : h2 ≠ hand) :
    (controller_model_store hand model w).input_render.controller_model h2 =
      w.input_render.controller_model h2 := by
  unfold controller_model_store
  split_ifs with h
  · simp [hne]
  · rfl

/-- The replacement leaves the flag alone. -/
theorem controller_model_store_is_fallback :
    (controller_model_store hand model w).input_render.model_is_fallback =
      w.input_render.model_is_fallback := by
  unfold controller_model_store
  split_ifs with h
  · simp
  · rfl

/-- For a single hand the setter is the one-hand body. -/
theorem input_controller_model_set_of_ne_max (hne : hand ≠ handed_max) :
    input_controller_model_set xr hand model w = input_controller_model_set_hand xr hand model w := by
  simp [input_controller_model_set, hne]

/-- The handle the one-hand body stores is the resolved one. -/
theorem input_controller_model_set_hand_get :
    (input_controller_model_set_hand xr hand model w).input_render.controller_model hand =
      (controller_model_resolve xr hand model w).1 := by
  simp [input_controller_model_set_hand, controller_model_store_get]

/-- The flag after the one-hand body tells whether the argument was null. -/
theorem input_controller_model_set_hand_is_fallback :
    (input_controller_model_set_hand xr hand model w).input_render.model_is_fallback =
      decide (model = nullptr) := by
  simp [input_controller_model_set_hand, controller_model_store_is_fallback,
    controller_model_resolve_is_fallback]

/-- The getter answers the stored handle. -/
theorem input_controller_model_get_fst :
    (input_controller_model_get hand w).1 = w.input_render.controller_model hand := by
  unfold input_controller_model_get
  simp only []
  split_ifs <;> rfl

end frame

/-! ## Resolution of a null argument -/

section resolution

variable (xr : xr_runtime) (hand : handed_) (w : sk_world)

/-- The default of a real hand is not null when neither bundled default is. -/
theorem default_controller_ne_null (hl : w.sk_default_controller_l ≠ nullptr)
    (hr : w.sk_default_controller_r ≠ nullptr) : default_controller hand w ≠ nullptr := by
  unfold default_controller
  split_ifs <;> assumption

/-- A null argument resolves to the runtime's model or to the default. -/
theorem controller_model_resolve_null_fst :
    (controller_model_resolve xr hand nullptr w).1 =
      if w.MSFT_controller_model = true ∧ (controller_model_from_runtime xr hand w).1 ≠ nullptr then
        (controller_model_from_runtime xr hand w).1
      else default_controller hand w := by
  unfold controller_model_resolve
  by_cases hc : w.MSFT_controller_model = true
  · by_cases hm : (controller_model_from_runtime xr hand w).1 = nullptr
    · simp [hc, hm, controller_model_from_runtime_default]
    · simp [hc, hm]
  · simp [hc]

/-- With the bundled defaults present, a null argument never resolves to null. -/
theorem controller_model_resolve_null_ne_null (hl : w.sk_default_controller_l ≠ nullptr)
    (hr : w.sk_default_controller_r ≠ nullptr) :
    (controller_model_resolve xr hand nullptr w).1 ≠ nullptr := by
  rw [controller_model_resolve_null_fst]
  split_ifs with h
  · exact h.2
  · exact default_controller_ne_null hand w hl hr

/-- The runtime path gives nothing when the key query fails or gives the null
key. -/
theorem controller_model_from_runtime_no_key
    (h : XR_SUCCEEDED (key_query xr hand w).1 = false ∨
      (key_query xr hand w).2 = XR_NULL_CONTROLLER_MODEL_KEY_MSFT) :
    (controller_model_from_runtime xr hand w).1 = nullptr := by
  unfold controller_model_from_runtime
  dsimp only
  rw [if_neg]
  intro hc
  simp only [Bool.and_eq_true, decide_eq_true_eq] at hc
  rcases h with h | h
  · exact absurd hc.1 (by simpa [key_query, xr_record] using h)
  · exact hc.2 (by simpa [key_query, xr_record] using h)

/-- The cache lookup does not depend on the runtime log. -/
theorem model_find_xr_record (id : String) (c : xr_call) :
    model_find id (xr_record c w) = model_find id w := rfl

/-- The runtime path gives nothing when the cache misses and the size query or
the fill fails. -/
theorem controller_model_from_runtime_load_fails
    (hmiss : model_find (toString (key_query xr hand w).2) w = nullptr)
    (h : XR_SUCCEEDED (size_query xr hand w).result = false ∨
      XR_SUCCEEDED (fill_query xr hand w).result = false) :
    (controller_model_from_runtime xr hand w).1 = nullptr := by
  unfold controller_model_from_runtime
  dsimp only
  split_ifs with hc hf
  · unfold controller_model_load
    dsimp only
    split_ifs with hs hfl
    · rcases h with h | h
      · exact absurd hs (by simpa [size_query, key_query, xr_record] using h)
      · exact absurd hfl (by simpa [fill_query, size_query, key_query, xr_record] using h)
    · rfl
    · rfl
  · exact absurd hmiss hf
  · rfl

end resolution

/-! ## The default-model guarantee and degradation to the default -/

/-- C1 (default-model guarantee).  When both bundled default controller models
are non-null, then for either hand, from every world and whatever the runtime
answers, the handle `input_controller_model_get(h)` returns after
`input_controller_model_set(h, nullptr)` is non-null. -/
theorem default_model_guarantee (xr : xr_runtime) (h : handed_) (w : sk_world)
    (hh : h = handed_left ∨ h = handed_right)
    (hl : w.sk_default_controller_l ≠ nullptr) (hr : w.sk_default_controller_r ≠ nullptr) :
    (input_controller_model_get h (input_controller_model_set xr h nullptr w)).1 ≠ nullptr := by
  have hne : h ≠ handed_max := by rcases hh with rfl | rfl <;> decide
  rw [input_controller_model_get_fst, input_controller_model_set_of_ne_max xr h nullptr w hne,
    input_controller_model_set_hand_get]
  exact controller_model_resolve_null_ne_null xr h w hl hr

/-- C1 at the sample world with the runtime extension active. -/
theorem default_model_guarantee_witness :
    (handed_left = handed_left ∨ handed_left = handed_right) ∧
    (sample_world true).sk_default_controller_l ≠ nullptr ∧
    (sample_world true).sk_default_controller_r ≠ nullptr ∧
    (input_controller_model_get handed_left
      (input_controller_model_set sample_runtime handed_left nullptr (sample_world true))).1 ≠
        nullptr :=
  ⟨Or.inl rfl, by decide, by decide,
    default_model_guarantee sample_runtime handed_left (sample_world true) (Or.inl rfl)
      (by decide) (by decide)⟩

/-- C2 (degrade to default).  For either hand, if the controller-model
capability is not active, or the key query fails or returns the null key, or
the cache lookup misses and the buffer-size query or the buffer-fill call
fails, then after `input_controller_model_set(h, nullptr)` the stored model of
`h` is the bundled default of that hand and the is-fallback flag is true.  The
setter is a total function to worlds: nothing is reported to the caller. -/
theorem degrade_to_default (xr : xr_runtime) (h : handed_) (w : sk_world)
    (hh : h = handed_left ∨ h = handed_right)
    (hfail : w.MSFT_controller_model = false ∨
      (XR_SUCCEEDED (key_query xr h w).1 = false ∨
        (key_query xr h w).2 = XR_NULL_CONTROLLER_MODEL_KEY_MSFT) ∨
      (model_find (toString (key_query xr h w).2) w = nullptr ∧
        (XR_SUCCEEDED (size_query xr h w).result = false ∨
          XR_SUCCEEDED (fill_query xr h w).result = false))) :
    (input_controller_model_set xr h nullptr w).input_render.controller_model h =
        (if h = handed_left then w.sk_default_controller_l else w.sk_default_controller_r) ∧
      (input_controller_model_set xr h nullptr w).input_render.model_is_fallback = true := by
  have hne : h ≠ handed_max := by rcases hh with rfl | rfl <;> decide
  rw [input_controller_model_set_of_ne_max xr h nullptr w hne,
    input_controller_model_set_hand_get, input_controller_model_set_hand_is_fallback,
    controller_model_resolve_null_fst]
  refine ⟨?_, by simp⟩
  rw [if_neg]
  · rfl
  · rintro ⟨hc, hm⟩
    rcases hfail with hf | hf | hf
    · simp [hc] at hf
    · exact hm (controller_model_from_runtime_no_key xr h w hf)
    · exact hm (controller_model_from_runtime_load_fails xr h w hf.1 hf.2)

/-- C2 at the sample world: the capability is active, the key is 42, the cache
misses and the fill fails; the right hand gets the right default, model 2. -/
theorem degrade_to_default_witness :
    (model_find (toString (key_query sample_runtime_fill_fails handed_right (sample_world true)).2)
        (sample_world true) = nullptr ∧
      XR_SUCCEEDED (fill_query sample_runtime_fill_fails handed_right (sample_world true)).result =
        false) ∧
    (input_controller_model_set sample_runtime_fill_fails handed_right nullptr
        (sample_world true)).input_render.controller_model handed_right = 2 ∧
    (input_controller_model_set sample_runtime_fill_fails handed_right nullptr
        (sample_world true)).input_render.model_is_fallback = true :=
  ⟨⟨by decide, by decide⟩,
    degrade_to_default sample_runtime_fill_fails handed_right (sample_world true) (Or.inr rfl)
      (Or.inr (Or.inr ⟨by decide, Or.inr (by decide)⟩))⟩

/-! ## The shared is-fallback flag -/

/-- C3 fails on the code.  `model_is_fallback` is one flag for both hands: the
application stores model 3 for the left hand, then asks for the default on the
right hand, which raises the flag; the next frame that renders the left
controller re-resolves the left hand too and replaces model 3 with the bundled
left default, model 1, although no setter was called for the left hand. -/
theorem explicit_model_lost_through_shared_flag :
    (input_controller_model_set sample_runtime handed_left 3
        (sample_world false)).input_render.controller_model handed_left = 3 ∧
    (input_controller_model_set sample_runtime handed_right nullptr
        (input_controller_model_set sample_runtime handed_left 3
          (sample_world false))).input_render.controller_model handed_left = 3 ∧
    (input_render_step_late sample_runtime sample_frame_controllers
        (input_controller_model_set sample_runtime handed_right nullptr
          (input_controller_model_set sample_runtime handed_left 3
            (sample_world false)))).input_render.controller_model handed_left = 1 := by
  refine ⟨by decide, by decide, by decide⟩

/-- While the flag is down, one loop iteration leaves the stored models and
the flag alone. -/
theorem input_render_step_late_hand_not_fallback (xr : xr_runtime) (f : frame_env) (i : handed_)
    (w : sk_world) (h : w.input_render.model_is_fallback = false) :
    (input_render_step_late_hand xr f i w).input_render.controller_model =
        w.input_render.controller_model ∧
      (input_render_step_late_hand xr f i w).input_render.model_is_fallback = false := by
  unfold input_render_step_late_hand
  dsimp only
  rw [h]
  simp only [Bool.false_eq_true, if_false]
  split_ifs <;> exact ⟨rfl, h⟩

/-- While the flag is down, frames of `input_render_step_late` leave the
stored models of both hands alone, whatever is tracked or focused. -/
theorem input_render_frames_not_fallback (xr : xr_runtime) (frames : List frame_env)
    (w : sk_world) (h : w.input_render.model_is_fallback = false) :
    (input_render_frames xr frames w).input_render.controller_model =
        w.input_render.controller_model ∧
      (input_render_frames xr frames w).input_render.model_is_fallback = false := by
  induction frames generalizing w with
  | nil => exact ⟨rfl, h⟩
  | cons f rest ih =>
    have hstep : (input_render_step_late xr f w).input_render.controller_model =
          w.input_render.controller_model ∧
        (input_render_step_late xr f w).input_render.model_is_fallback = false := by
      unfold input_render_step_late
      split_ifs
      · exact ⟨rfl, h⟩
      · simp only [List.foldl]
        have h1 := input_render_step_late_hand_not_fallback xr f handed_left w h
        have h2 := input_render_step_late_hand_not_fallback xr f handed_right _ h1.2
        exact ⟨h2.1.trans h1.1, h2.2⟩
    have hrest := ih (input_render_step_late xr f w) hstep.2
    exact ⟨hrest.1.trans hstep.1, hrest.2⟩

/-! ## Idempotence, both hands, the getter -/

section setter

variable (xr : xr_runtime) (hand : handed_) (model : model_t) (w : sk_world)

/-- Writing the flag it already has leaves the world as it is. -/
theorem set_model_is_fallback_of_eq (b : Bool) (h : w.input_render.model_is_fallback = b) :
    set_model_is_fallback b w = w := by
  subst h
  rfl

/-- Storing the handle that is already stored leaves the world as it is. -/
theorem controller_model_store_of_eq (h : w.input_render.controller_model hand = model) :
    controller_model_store hand model w = w := by
  unfold controller_model_store
  rw [if_neg]
  exact not_not.mpr h.symm

/-- A non-null argument is taken as it is and lowers the flag. -/
theorem controller_model_resolve_of_ne_null (h : model ≠ nullptr) :
    controller_model_resolve xr hand model w = (model, set_model_is_fallback false w) := by
  unfold controller_model_resolve
  rw [if_neg h]

end setter

/-- C4 (setter idempotence).  For either hand and every non-null handle `X`,
the second of two calls `input_controller_model_set(h, X)` in a row leaves the
world exactly as the first call left it: every reference count, the stored
handles, the is-fallback flag, and the log of asset operations, so the second
call makes no addref and no release. -/
theorem setter_idempotent (xr : xr_runtime) (h : handed_) (X : model_t) (w : sk_world)
    (hh : h = handed_left ∨ h = handed_right) (hX : X ≠ nullptr) :
    input_controller_model_set xr h X (input_controller_model_set xr h X w) =
      input_controller_model_set xr h X w := by
  have hne : h ≠ handed_max := by rcases hh with rfl | rfl <;> decide
  simp only [input_controller_model_set_of_ne_max xr h X _ hne]
  have hget : (input_controller_model_set_hand xr h X w).input_render.controller_model h = X := by
    rw [input_controller_model_set_hand_get, controller_model_resolve_of_ne_null xr h X w hX]
  have hflag : (input_controller_model_set_hand xr h X w).input_render.model_is_fallback = false := by
    rw [input_controller_model_set_hand_is_fallback]
    simpa using hX
  generalize input_controller_model_set_hand xr h X w = w1 at hget hflag
  unfold input_controller_model_set_hand
  rw [controller_model_resolve_of_ne_null xr h X w1 hX]
  dsimp only
  rw [set_model_is_fallback_of_eq w1 false hflag, controller_model_store_of_eq h X w1 hget]

/-- C4 at the sample world: model 3 stored twice for the left hand; its count
is 2 after the first call and still 2 after the second. -/
theorem setter_idempotent_witness :
    (3 : model_t) ≠ nullptr ∧
    (input_controller_model_set sample_runtime handed_left 3
      (sample_world true)).models.refs 3 = 2 ∧
    input_controller_model_set sample_runtime handed_left 3
        (input_controller_model_set sample_runtime handed_left 3 (sample_world true)) =
      input_controller_model_set sample_runtime handed_left 3 (sample_world true) :=
  ⟨by decide, by decide,
    setter_idempotent sample_runtime handed_left 3 (sample_world true) (Or.inl rfl) (by decide)⟩

/-- C5 (both-hands equivalence).  For every world and every argument `X`, null
or not, `input_controller_model_set(handed_max, X)` ends in the same world as
the call for `handed_left` followed by the call for `handed_right`: the same
stored models, flag and reference counts, and the same log of runtime
queries. -/
theorem both_hands_equivalence (xr : xr_runtime) (X : model_t) (w : sk_world) :
    input_controller_model_set xr handed_max X w =
      input_controller_model_set xr handed_right X
        (input_controller_model_set xr handed_left X w) := by
  simp [input_controller_model_set]

/-- C6 (the getter returns an acquired reference).  For either hand,
`input_controller_model_get(h)` returns the handle stored for `h` and leaves
`local` (the stored handles and the is-fallback flag) as it was.  When the
handle is non-null its reference count is one higher, every other count is
unchanged, and one release brings the counts back; when it is null no count
changes. -/
theorem getter_acquires (h : handed_) (w : sk_world) (_hh : h = handed_left ∨ h = handed_right) :
    (input_controller_model_get h w).1 = w.input_render.controller_model h ∧
    (input_controller_model_get h w).2.input_render = w.input_render ∧
    (w.input_render.controller_model h ≠ nullptr →
      (input_controller_model_get h w).2.models.refs (w.input_render.controller_model h) =
          w.models.refs (w.input_render.controller_model h) + 1 ∧
        (∀ m, m ≠ w.input_render.controller_model h →
          (input_controller_model_get h w).2.models.refs m = w.models.refs m) ∧
        (model_release (input_controller_model_get h w).1
          (input_controller_model_get h w).2).models.refs = w.models.refs) ∧
    (w.input_render.controller_model h = nullptr →
      (input_controller_model_get h w).2.models.refs = w.models.refs) := by
  refine ⟨input_controller_model_get_fst h w, ?_, ?_, ?_⟩
  · unfold input_controller_model_get
    dsimp only
    split_ifs <;> rfl
  · intro hnn
    have hg : (input_controller_model_get h w).2 =
        model_addref (w.input_render.controller_model h) w := by
      unfold input_controller_model_get
      dsimp only
      rw [if_pos hnn]
    rw [hg, input_controller_model_get_fst]
    refine ⟨by simp [model_addref], fun m hm => by simp [model_addref, Function.update_apply, hm], ?_⟩
    unfold model_release
    rw [if_neg hnn]
    funext m
    by_cases hm : m = w.input_render.controller_model h
    · subst hm
      simp [model_addref]
    · simp [model_addref, Function.update_apply, hm]
  · intro hn
    unfold input_controller_model_get
    dsimp only
    rw [if_neg (not_not.mpr hn)]

/-- C6 at the sample world after model 3 was stored for the right hand: the
getter answers 3 and its count goes from 2 to 3. -/
theorem getter_acquires_witness :
    (input_controller_model_get handed_right
      (input_controller_model_set sample_runtime handed_right 3 (sample_world false))).1 = 3 ∧
    (input_controller_model_set sample_runtime handed_right 3 (sample_world false)).models.refs 3 = 2 ∧
    (input_controller_model_get handed_right
      (input_controller_model_set sample_runtime handed_right 3
        (sample_world false))).2.models.refs 3 = 3 :=
  have hw := getter_acquires handed_right
    (input_controller_model_set sample_runtime handed_right 3 (sample_world false)) (Or.inr rfl)
  ⟨hw.1, by decide, (hw.2.2.1 (by decide)).1⟩

/-! ## Loading the runtime's model -/

section load

variable (xr : xr_runtime) (hand : handed_) (w : sk_world)

/-- The handle `controller_model_create` answers is the next free one. -/
theorem controller_model_create_fst (key_str : String) (capacity : Nat) (data : List Nat)
    (size : Nat) :
    (controller_model_create hand key_str capacity data size w).1 = w.models.count + 1 := rfl

/-- The created model carries the key string as id. -/
theorem controller_model_create_id (key_str : String) (capacity : Nat) (data : List Nat)
    (size : Nat) :
    (controller_model_create hand key_str capacity data size w).2.models.id (w.models.count + 1) =
      key_str := by
  simp [controller_model_create, model_set_id, model_node_set_transform_local_root,
    model_create_mem]

/-- The root node of the created model is the loaded transform times the half
turn. -/
theorem controller_model_create_root_local (key_str : String) (capacity : Nat) (data : List Nat)
    (size : Nat) :
    (controller_model_create hand key_str capacity data size w).2.models.root_local
        (w.models.count + 1) =
      matrix.mul (matrix.gltf_root data size) (matrix.from_angles 0 180 0) := by
  simp [controller_model_create, model_set_id, model_node_set_transform_local_root,
    model_node_get_transform_local_root, model_create_mem]

/-- On the success path the runtime branch is `controller_model_create`, run
after the four runtime calls. -/
theorem controller_model_from_runtime_loaded
    (hkey : XR_SUCCEEDED (key_query xr hand w).1 = true)
    (hk0 : (key_query xr hand w).2 ≠ XR_NULL_CONTROLLER_MODEL_KEY_MSFT)
    (hmiss : model_find (toString (key_query xr hand w).2) w = nullptr)
    (hsize : XR_SUCCEEDED (size_query xr hand w).result = true)
    (hfill : XR_SUCCEEDED (fill_query xr hand w).result = true) :
    controller_model_from_runtime xr hand w =
      controller_model_create hand (toString (key_query xr hand w).2)
        (size_query xr hand w).buffer_count_output (fill_query xr hand w).buffer
        (fill_query xr hand w).buffer_count_output
        (xr_record (xr_call.xrLoadControllerModelMSFT (key_query xr hand w).2
            (size_query xr hand w).buffer_count_output)
          (xr_record (xr_call.xrLoadControllerModelMSFT (key_query xr hand w).2 0)
            (xr_record (xr_call.xrGetControllerModelKeyMSFT (hand_path hand))
              (xr_record (xr_call.xrStringToPath (hand_path hand)) w)))) := by
  unfold controller_model_from_runtime
  dsimp only
  rw [if_pos, if_pos]
  · unfold controller_model_load
    dsimp only
    rw [if_pos, if_pos]
    · rfl
    · simpa [fill_query, size_query, key_query, xr_record] using hfill
    · simpa [size_query, key_query, xr_record] using hsize
  · exact hmiss
  · simp only [Bool.and_eq_true, decide_eq_true_eq]
    exact ⟨by simpa [key_query, xr_record] using hkey, by simpa [key_query, xr_record] using hk0⟩

/-- The replacement of the stored handle changes no id. -/
theorem controller_model_store_id (model : model_t) :
    (controller_model_store hand model w).models.id = w.models.id := by
  unfold controller_model_store model_release
  dsimp only
  split_ifs <;> rfl

/-- The replacement of the stored handle changes no node transform. -/
theorem controller_model_store_root_local (model : model_t) :
    (controller_model_store hand model w).models.root_local = w.models.root_local := by
  unfold controller_model_store model_release
  dsimp only
  split_ifs <;> rfl

end load

/-- C7 (runtime model load).  For either hand and every non-null key `k`: if
the capability is active, the key query succeeds with `k`, the cache has no
model with id the decimal string of `k`, and the size query and the fill both
succeed, then `input_controller_model_set(h, nullptr)` stores for `h` a handle
that did not exist before (the next one after the `count` handles of the old
world), whose id is the decimal string of `k` and whose root node transform is
the transform loaded from the filled buffer multiplied on the right by
`matrix_from_angles(0, 180, 0)`.  It is not the bundled default, provided the
default is one of the handles that existed. -/
theorem runtime_model_load (xr : xr_runtime) (h : handed_) (w : sk_world) (k : Nat)
    (hh : h = handed_left ∨ h = handed_right)
    (hcap : w.MSFT_controller_model = true)
    (hkey : XR_SUCCEEDED (key_query xr h w).1 = true)
    (hk : (key_query xr h w).2 = k)
    (hk0 : k ≠ XR_NULL_CONTROLLER_MODEL_KEY_MSFT)
    (hmiss : model_find (toString k) w = nullptr)
    (hsize : XR_SUCCEEDED (size_query xr h w).result = true)
    (hfill : XR_SUCCEEDED (fill_query xr h w).result = true) :
    (input_controller_model_set xr h nullptr w).input_render.controller_model h =
        w.models.count + 1 ∧
      (input_controller_model_set xr h nullptr w).models.id (w.models.count + 1) = toString k ∧
      (input_controller_model_set xr h nullptr w).models.root_local (w.models.count + 1) =
        matrix.mul
          (matrix.gltf_root (fill_query xr h w).buffer (fill_query xr h w).buffer_count_output)
          (matrix.from_angles 0 180 0) ∧
      ((if h = handed_left then w.sk_default_controller_l else w.sk_default_controller_r) ≤
          w.models.count →
        (input_controller_model_set xr h nullptr w).input_render.controller_model h ≠
          (if h = handed_left then w.sk_default_controller_l else w.sk_default_controller_r)) := by
  have hne : h ≠ handed_max := by rcases hh with rfl | rfl <;> decide
  subst hk
  have hrun := controller_model_from_runtime_loaded xr h w hkey hk0 hmiss hsize hfill
  have hres : controller_model_resolve xr h nullptr w =
      ((controller_model_from_runtime xr h w).1,
        set_model_is_fallback true (controller_model_from_runtime xr h w).2) := by
    unfold controller_model_resolve
    have h1 : (controller_model_from_runtime xr h w).1 ≠ nullptr := by
      rw [hrun, controller_model_create_fst]
      exact Nat.succ_ne_zero _
    simp [hcap, h1]
  have hstored : (input_controller_model_set xr h nullptr w).input_render.controller_model h =
      w.models.count + 1 := by
    rw [input_controller_model_set_of_ne_max xr h nullptr w hne,
      input_controller_model_set_hand_get, hres, hrun, controller_model_create_fst]
    rfl
  refine ⟨hstored, ?_, ?_, ?_⟩
  · rw [input_controller_model_set_of_ne_max xr h nullptr w hne]
    unfold input_controller_model_set_hand
    dsimp only
    rw [controller_model_store_id, hres, hrun]
    exact controller_model_create_id h _ _ _ _ _
  · rw [input_controller_model_set_of_ne_max xr h nullptr w hne]
    unfold input_controller_model_set_hand
    dsimp only
    rw [controller_model_store_root_local, hres, hrun]
    exact controller_model_create_root_local h _ _ _ _ _
  · intro hle heq
    rw [hstored] at heq
    rw [← heq] at hle
    exact Nat.not_succ_le_self _ hle

/-- C7 at the sample world: key 42, nothing cached; the left hand gets the new
model 4, whose id is "42" and whose root is the loaded transform turned by 180
degrees, and not the bundled left default, model 1. -/
theorem runtime_model_load_witness :
    (model_find (toString 42) (sample_world true) = nullptr) ∧
    (input_controller_model_set sample_runtime handed_left nullptr
      (sample_world true)).input_render.controller_model handed_left = 4 ∧
    (input_controller_model_set sample_runtime handed_left nullptr
      (sample_world true)).models.id 4 = "42" ∧
    (input_controller_model_set sample_runtime handed_left nullptr
      (sample_world true)).models.root_local 4 =
        matrix.mul (matrix.gltf_root [103, 108, 84] 3) (matrix.from_angles 0 180 0) ∧
    (input_controller_model_set sample_runtime handed_left nullptr
      (sample_world true)).input_render.controller_model handed_left ≠ 1 :=
  have hw := runtime_model_load sample_runtime handed_left (sample_world true) 42 (Or.inl rfl)
    rfl (by decide) rfl (by decide) (by decide) (by decide) (by decide)
  ⟨by decide, hw.1, hw.2.1, hw.2.2.1, hw.2.2.2 (by decide)⟩

/-! ## The render pass -/

section render

variable (xr : xr_runtime) (f : frame_env) (i : handed_) (w : sk_world)

/-- An articulated hand that is not tracked, or has no material, is skipped. -/
theorem input_render_step_late_hand_articulated_skip
    (hs : f.input_hand_source i = hand_source_articulated)
    (hb : (f.input_hand i).tracked_state &&& f.button_state_active = 0 ∨
      w.input_render.hand_material i = nullptr) :
    input_render_step_late_hand xr f i w = w := by
  have hc : ¬((f.input_hand i).tracked_state &&& f.button_state_active ≠ 0 ∧
      w.input_render.hand_material i ≠ nullptr) := by
    rintro ⟨h1, h2⟩
    rcases hb with hb | hb
    · exact h1 hb
    · exact h2 hb
  unfold input_render_step_late_hand
  dsimp only
  rw [hs]
  simp only [reduceCtorEq, if_false, if_true]
  rw [if_neg hc]
  split_ifs <;> rfl

/-- An overridden hand that is not tracked, or has no material, is skipped. -/
theorem input_render_step_late_hand_overridden_skip
    (hs : f.input_hand_source i = hand_source_overridden)
    (hb : (f.input_hand i).tracked_state &&& f.button_state_active = 0 ∨
      w.input_render.hand_material i = nullptr) :
    input_render_step_late_hand xr f i w = w := by
  have hc : ¬((f.input_hand i).tracked_state &&& f.button_state_active ≠ 0 ∧
      w.input_render.hand_material i ≠ nullptr) := by
    rintro ⟨h1, h2⟩
    rcases hb with hb | hb
    · exact h1 hb
    · exact h2 hb
  unfold input_render_step_late_hand
  dsimp only
  rw [hs]
  simp only [reduceCtorEq, if_false, if_true]
  rw [if_neg hc]
  split_ifs <;> rfl

/-- A controller that is not tracked, or has no model, is skipped. -/
theorem input_render_step_late_hand_simulated_skip
    (hs : f.input_hand_source i = hand_source_simulated)
    (hb : (f.input_controller i).tracked &&& f.button_state_active = 0 ∨
      w.input_render.controller_model i = nullptr) :
    input_render_step_late_hand xr f i w = w := by
  have hc : ¬((f.input_controller i).tracked &&& f.button_state_active ≠ 0 ∧
      w.input_render.controller_model i ≠ nullptr) := by
    rintro ⟨h1, h2⟩
    rcases hb with hb | hb
    · exact h1 hb
    · exact h2 hb
  unfold input_render_step_late_hand
  dsimp only
  rw [hs]
  simp only [reduceCtorEq, if_false, if_true]
  rw [if_neg hc]
  split_ifs <;> rfl

/-- A hand without a source is skipped. -/
theorem input_render_step_late_hand_none_skip
    (hs : f.input_hand_source i = hand_source_none) :
    input_render_step_late_hand xr f i w = w := by
  unfold input_render_step_late_hand
  dsimp only
  rw [hs]
  simp only [reduceCtorEq, if_false, if_true]
  split_ifs <;> rfl

end render

section render_frame

variable (xr : xr_runtime) (f : frame_env) (i : handed_) (w : sk_world)

/-- A hand with nothing to draw is skipped: its loop iteration changes nothing. -/
theorem input_render_step_late_hand_skip (hb : nothing_to_draw f w i) :
    input_render_step_late_hand xr f i w = w := by
  rcases hb with ⟨hs | hs, hb⟩ | ⟨hs, hb⟩ | hs | hv
  · exact input_render_step_late_hand_articulated_skip xr f i w hs hb
  · exact input_render_step_late_hand_overridden_skip xr f i w hs hb
  · exact input_render_step_late_hand_simulated_skip xr f i w hs hb
  · exact input_render_step_late_hand_none_skip xr f i w hs
  · unfold input_render_step_late_hand
    rw [if_pos hv]

/-- The one-hand setter leaves the hand materials alone. -/
theorem input_controller_model_set_hand_hand_material (model : model_t) :
    (input_controller_model_set_hand xr i model w).input_render.hand_material =
      w.input_render.hand_material := by
  have hres : (controller_model_resolve xr i model w).2.input_render.hand_material =
      w.input_render.hand_material := by
    unfold controller_model_resolve
    dsimp only
    split_ifs <;>
      simp [set_model_is_fallback, controller_model_from_runtime_input_render]
  unfold input_controller_model_set_hand controller_model_store
  dsimp only
  split_ifs
  · simpa [set_controller_model] using hres
  · exact hres

/-- The one-hand setter leaves the other hand's stored model alone. -/
theorem input_controller_model_set_hand_other (model : model_t) (h2 : handed_) (hne : h2 ≠ i) :
    (input_controller_model_set_hand xr i model w).input_render.controller_model h2 =
      w.input_render.controller_model h2 := by
  unfold input_controller_model_set_hand
  dsimp only
  rw [controller_model_store_other _ _ _ _ hne, controller_model_resolve_controller_model]

/-- One loop iteration leaves the hand materials alone. -/
theorem input_render_step_late_hand_hand_material :
    (input_render_step_late_hand xr f i w).input_render.hand_material =
      w.input_render.hand_material := by
  unfold input_render_step_late_hand
  dsimp only
  split_ifs <;> first
    | rfl
    | (simp only [render_record, input_controller_model_set]
       split_ifs <;> first
         | rfl
         | exact input_controller_model_set_hand_hand_material xr _ w _
         | (rw [input_controller_model_set_hand_hand_material,
              input_controller_model_set_hand_hand_material]))

/-- One loop iteration leaves the other hand's stored model alone. -/
theorem input_render_step_late_hand_other (h2 : handed_) (hne : h2 ≠ i) (hi : i ≠ handed_max) :
    (input_render_step_late_hand xr f i w).input_render.controller_model h2 =
      w.input_render.controller_model h2 := by
  unfold input_render_step_late_hand
  dsimp only
  split_ifs <;> first
    | rfl
    | (simp only [render_record, input_controller_model_set_of_ne_max xr i nullptr w hi]
       exact input_controller_model_set_hand_other xr i w _ h2 hne)

/-- When a hand has nothing to draw, one iteration for the other hand does not
change that. -/
theorem nothing_to_draw_step_late_hand (h2 : handed_) (hne : h2 ≠ i) (hi : i ≠ handed_max)
    (hb : nothing_to_draw f w h2) :
    nothing_to_draw f (input_render_step_late_hand xr f i w) h2 := by
  unfold nothing_to_draw at hb ⊢
  rw [input_render_step_late_hand_hand_material, input_render_step_late_hand_other xr f i w h2 hne hi]
  exact hb

end render_frame

/-- C8 (no draw without focus, tracking and an assigned visual).  In
`input_render_step_late`: without application focus the frame submits no draw;
the loop iteration of a hand `i` that has nothing to draw (tracked state
without the active bit, or hand material null for an articulated or overridden
hand, controller model null for a simulated one; any hand whose source is
`hand_source_none`, tracked or not; any hand that is not visible) submits no
draw, in whatever world it starts; in a whole frame the draws are then those of
the other hand's iteration alone, and none when both hands have nothing to
draw.  So for every hand source no draw is submitted without focus, tracking
and the visual of its branch. -/
theorem no_draw_without_focus_tracking_visual (xr : xr_runtime) (f : frame_env) (w : sk_world) :
    (f.sk_app_focus ≠ app_focus_active →
      draw_calls (input_render_step_late xr f w) = draw_calls w) ∧
    (∀ i, nothing_to_draw f w i →
      draw_calls (input_render_step_late_hand xr f i w) = draw_calls w) ∧
    (f.sk_app_focus = app_focus_active → nothing_to_draw f w handed_left →
      draw_calls (input_render_step_late xr f w) =
        draw_calls (input_render_step_late_hand xr f handed_right w)) ∧
    (f.sk_app_focus = app_focus_active → nothing_to_draw f w handed_right →
      draw_calls (input_render_step_late xr f w) =
        draw_calls (input_render_step_late_hand xr f handed_left w)) ∧
    (nothing_to_draw f w handed_left → nothing_to_draw f w handed_right →
      draw_calls (input_render_step_late xr f w) = draw_calls w) := by
  have hleft : nothing_to_draw f w handed_left →
      input_render_step_late_hand xr f handed_right
          (input_render_step_late_hand xr f handed_left w) =
        input_render_step_late_hand xr f handed_right w := by
    intro hb
    rw [input_render_step_late_hand_skip xr f handed_left w hb]
  have hright : nothing_to_draw f w handed_right →
      input_render_step_late_hand xr f handed_right
          (input_render_step_late_hand xr f handed_left w) =
        input_render_step_late_hand xr f handed_left w := by
    intro hb
    exact input_render_step_late_hand_skip xr f handed_right _
      (nothing_to_draw_step_late_hand xr f handed_left w handed_right (by decide) (by decide) hb)
  refine ⟨?_, ?_, ?_, ?_, ?_⟩
  · intro hf
    simp [input_render_step_late, hf]
  · intro i hb
    rw [input_render_step_late_hand_skip xr f i w hb]
  · intro hf hb
    simp only [input_render_step_late, hf, ne_eq, not_true_eq_false, if_false, List.foldl]
    rw [hleft hb]
  · intro hf hb
    simp only [input_render_step_late, hf, ne_eq, not_true_eq_false, if_false, List.foldl]
    rw [hright hb]
  · intro hl hr
    unfold input_render_step_late
    split_ifs
    · rfl
    · simp only [List.foldl]
      rw [hleft hl, input_render_step_late_hand_skip xr f handed_right w hr]

/-- C8 at the sample world with a material set on both hands: with neither
hand tracked the frame submits no draw call, and with both hands tracked but of
source `hand_source_none` it submits none either. -/
theorem no_draw_without_focus_tracking_visual_witness :
    sample_world_with_material.input_render.hand_material handed_left = 5 ∧
    nothing_to_draw sample_frame_untracked_hands sample_world_with_material handed_left ∧
    nothing_to_draw sample_frame_untracked_hands sample_world_with_material handed_right ∧
    draw_calls (input_render_step_late sample_runtime sample_frame_untracked_hands
      sample_world_with_material) = [] ∧
    (sample_frame_no_source.input_hand handed_left).tracked_state &&&
      sample_frame_no_source.button_state_active ≠ 0 ∧
    draw_calls (input_render_step_late sample_runtime sample_frame_no_source
      sample_world_with_material) = [] :=
  have hl : nothing_to_draw sample_frame_untracked_hands sample_world_with_material handed_left :=
    Or.inl ⟨Or.inl rfl, Or.inl (by decide)⟩
  have hr : nothing_to_draw sample_frame_untracked_hands sample_world_with_material handed_right :=
    Or.inl ⟨Or.inl rfl, Or.inl (by decide)⟩
  ⟨rfl, hl, hr,
    (no_draw_without_focus_tracking_visual sample_runtime sample_frame_untracked_hands
      sample_world_with_material).2.2.2.2 hl hr,
    by decide,
    (no_draw_without_focus_tracking_visual sample_runtime sample_frame_no_source
      sample_world_with_material).2.2.2.2 (Or.inr (Or.inr (Or.inl rfl)))
        (Or.inr (Or.inr (Or.inl rfl)))⟩

/-! ## The colour of hand mesh draws -/

section colour

variable (xr : xr_runtime) (f : frame_env) (i : handed_) (w : sk_world)

/-- The replacement of the stored handle queues nothing on the renderer. -/
theorem controller_model_store_render_log (model : model_t) :
    (controller_model_store i model w).render_log = w.render_log := by
  unfold controller_model_store model_release
  dsimp only
  split_ifs <;> rfl

/-- Resolution queues nothing on the renderer. -/
theorem controller_model_resolve_render_log (model : model_t) :
    (controller_model_resolve xr i model w).2.render_log = w.render_log := by
  have hload : ∀ k s v, (controller_model_load xr i k s v).2.render_log = v.render_log := by
    intro k s v
    unfold controller_model_load
    dsimp only
    split_ifs <;> rfl
  have hrun : (controller_model_from_runtime xr i w).2.render_log = w.render_log := by
    unfold controller_model_from_runtime
    dsimp only
    split_ifs <;> first | rfl | exact hload _ _ _
  unfold controller_model_resolve
  dsimp only
  split_ifs <;> first | rfl | exact hrun

/-- The setter queues nothing on the renderer. -/
theorem input_controller_model_set_render_log (h : handed_) (model : model_t) :
    (input_controller_model_set xr h model w).render_log = w.render_log := by
  have hone : ∀ h2 v, (input_controller_model_set_hand xr h2 model v).render_log = v.render_log := by
    intro h2 v
    unfold input_controller_model_set_hand
    dsimp only
    rw [controller_model_store_render_log, controller_model_resolve_render_log]
  unfold input_controller_model_set
  split_ifs
  · dsimp only
    rw [hone, hone]
  · exact hone _ _

/-- What one loop iteration appends to the render log: nothing, or a mesh
update followed by a mesh draw in the pinch colour of this hand, or a model
draw. -/
theorem input_render_step_late_hand_render_log :
    (input_render_step_late_hand xr f i w).render_log = w.render_log ∨
    (∃ u mesh material transform,
      (input_render_step_late_hand xr f i w).render_log =
        w.render_log ++ [u, render_call.render_add_mesh mesh material transform
          (pinch_color f (f.input_hand i))] ∧ is_draw u = false) ∨
    (∃ model pose,
      (input_render_step_late_hand xr f i w).render_log =
        w.render_log ++ [render_call.render_add_model model pose]) := by
  unfold input_render_step_late_hand
  dsimp only
  split_ifs
  · exact Or.inl rfl
  · exact Or.inr (Or.inl ⟨render_call.hand_oxra_update_system_mesh i, _, _, _,
      List.append_assoc _ [_] [_], rfl⟩)
  · exact Or.inr (Or.inl ⟨render_call.input_hand_update_fallback_mesh i, _, _, _,
      List.append_assoc _ [_] [_], rfl⟩)
  · exact Or.inl rfl
  · refine Or.inr (Or.inr
      ⟨(input_controller_model_set xr i nullptr w).input_render.controller_model i,
        (f.input_controller i).pose, ?_⟩)
    show (input_controller_model_set xr i nullptr w).render_log ++ [_] = _
    rw [input_controller_model_set_render_log]
  · exact Or.inr (Or.inr ⟨_, _, rfl⟩)
  · exact Or.inl rfl
  · exact Or.inr (Or.inl ⟨render_call.input_hand_update_fallback_mesh i, _, _, _,
      List.append_assoc _ [_] [_], rfl⟩)
  · exact Or.inl rfl
  · exact Or.inl rfl

end colour

/-- Every mesh draw one loop iteration appends carries the pinch colour of its
hand. -/
theorem input_render_step_late_hand_mesh_color (xr : xr_runtime) (f : frame_env) (i : handed_)
    (w : sk_world) :
    ∃ new, (input_render_step_late_hand xr f i w).render_log = w.render_log ++ new ∧
      ∀ mesh material transform color,
        render_call.render_add_mesh mesh material transform color ∈ new →
          color = pinch_color f (f.input_hand i) := by
  rcases input_render_step_late_hand_render_log xr f i w with h | ⟨u, m, mat, t, h, hu⟩ |
    ⟨m, p, h⟩
  · exact ⟨[], by simpa using h, by simp⟩
  · refine ⟨_, h, ?_⟩
    intro mesh material transform color hmem
    simp only [List.mem_cons, List.mem_singleton, List.not_mem_nil, or_false] at hmem
    rcases hmem with hmem | hmem
    · rw [← hmem] at hu
      simp [is_draw] at hu
    · injection hmem with _ _ _ hc
  · refine ⟨_, h, ?_⟩
    intro mesh material transform color hmem
    simp at hmem

/-- C9 (pinch brightness).  Every hand mesh draw `input_render_step_late`
submits, in the iteration of hand `i` and so in the whole frame, for
articulated and overridden hands alike, carries the colour
`{1.5, 1.5, 1.5, 1}` when the pinch state of that hand has the active bit and
`{1, 1, 1, 1}` when it has not; the colour depends on no other bit of the pinch
state. -/
theorem pinch_brightness (xr : xr_runtime) (f : frame_env) (w : sk_world) :
    (∀ i, ∃ new, (input_render_step_late_hand xr f i w).render_log = w.render_log ++ new ∧
      ∀ mesh material transform color,
        render_call.render_add_mesh mesh material transform color ∈ new →
          color =
            if (f.input_hand i).pinch_state &&& f.button_state_active ≠ 0 then
              { r := 3 / 2, g := 3 / 2, b := 3 / 2, a := 1 }
            else { r := 1, g := 1, b := 1, a := 1 }) ∧
    (∃ new, (input_render_step_late xr f w).render_log = w.render_log ++ new ∧
      ∀ mesh material transform color,
        render_call.render_add_mesh mesh material transform color ∈ new →
          ∃ i, (i = handed_left ∨ i = handed_right) ∧
            color =
              if (f.input_hand i).pinch_state &&& f.button_state_active ≠ 0 then
                { r := 3 / 2, g := 3 / 2, b := 3 / 2, a := 1 }
              else { r := 1, g := 1, b := 1, a := 1 }) ∧
    (∀ p q : hand_t,
      p.pinch_state &&& f.button_state_active = q.pinch_state &&& f.button_state_active →
        pinch_color f p = pinch_color f q) := by
  refine ⟨fun i => input_render_step_late_hand_mesh_color xr f i w, ?_, ?_⟩
  · unfold input_render_step_late
    split_ifs
    · exact ⟨[], by simp, by simp⟩
    · obtain ⟨n1, h1, c1⟩ := input_render_step_late_hand_mesh_color xr f handed_left w
      obtain ⟨n2, h2, c2⟩ := input_render_step_late_hand_mesh_color xr f handed_right
        (input_render_step_late_hand xr f handed_left w)
      refine ⟨n1 ++ n2, ?_, ?_⟩
      · simp only [List.foldl]
        rw [h2, h1, List.append_assoc]
      · intro mesh material transform color hmem
        rcases List.mem_append.mp hmem with hm | hm
        · exact ⟨handed_left, Or.inl rfl, c1 _ _ _ _ hm⟩
        · exact ⟨handed_right, Or.inr rfl, c2 _ _ _ _ hm⟩
  · intro p q hpq
    unfold pinch_color
    rw [hpq]

/-! ## Resize -/

/-- C10 (resize).  For all integers `width` and `height`, `linux_resize` calls
the swapchain resize (with the new size) and the projection recompute exactly
when `(width, height)` differs from the recorded display size; when they are
equal it changes nothing; and in every case the recorded display size after
the call is `(width, height)`. -/
theorem linux_resize_spec (width height : Int) (s : linux_state) :
    (linux_resize width height s).calls =
        s.calls ++
          (if (width, height) ≠ (s.display_width, s.display_height) then
            [linux_call.log_diagf width height, linux_call.skg_swapchain_resize width height,
              linux_call.render_update_projection]
          else []) ∧
    ((width, height) = (s.display_width, s.display_height) → linux_resize width height s = s) ∧
    (linux_resize width height s).display_width = width ∧
    (linux_resize width height s).display_height = height := by
  unfold linux_resize
  by_cases h : width = s.display_width ∧ height = s.display_height
  · have h2 : (width, height) = (s.display_width, s.display_height) := by rw [h.1, h.2]
    simp [h2, h.1, h.2]
  · have h2 : (width, height) ≠ (s.display_width, s.display_height) := by
      intro he
      injection he with h3 h4
      exact h ⟨h3, h4⟩
    rw [if_neg h]
    simp [h2]

/-! ## The key map and the input thread -/

/-- The test of line 191 reads the bit of the key code. -/
theorem keymap_test_eq (x : x_server) (kc : Nat) : keymap_test x kc = keycode_bit_set x kc := by
  unfold keymap_test keycode_bit_set
  have h7 : kc &&& 7 = kc % 8 := Nat.and_pow_two_sub_one_eq_mod kc 3
  rw [Nat.shiftRight_eq_div_pow, h7, Nat.one_shiftLeft]
  show decide (x.keys_return (kc / 8) &&& 2 ^ (kc % 8) ≠ 0) = _
  generalize x.keys_return (kc / 8) = m
  generalize kc % 8 = n
  cases hb : m.testBit n
  · rw [decide_eq_false_iff_not, not_not]
    apply Nat.eq_of_testBit_eq
    intro i
    rw [Nat.testBit_and, Nat.zero_testBit, Nat.testBit_two_pow]
    by_cases hi : n = i
    · subst hi
      simp [hb]
    · simp [hi]
  · rw [decide_eq_true_iff]
    intro h0
    have := Nat.testBit_and m (2 ^ n) n
    rw [h0, Nat.zero_testBit, hb, Nat.testBit_two_pow_self] at this
    simp at this

/-- Whether a platform key symbol is held: the bit of its key code is set. -/
theorem key_symbol_loop_spec (x : x_server) (i : Nat) (js : List Nat) (p : Nat → Bool) :
    (key_symbol_loop x i js (false, p)).1 =
        ((js.map (map_entry i).slot).takeWhile (fun sym => decide (sym ≠ 0))).any
          (fun sym => keycode_bit_set x (x.XKeysymToKeycode sym % 256)) ∧
      (key_symbol_loop x i js (false, p)).2 =
        if (key_symbol_loop x i js (false, p)).1 = true then Function.update p i true else p := by
  induction js with
  | nil => simp [key_symbol_loop]
  | cons j js ih =>
    unfold key_symbol_loop
    by_cases h0 : (map_entry i).slot j = 0
    · simp [h0]
    · by_cases hp : keymap_test x (x.XKeysymToKeycode ((map_entry i).slot j) % 256) = true
      · have hp2 := hp
        rw [keymap_test_eq] at hp2
        simp [h0, hp, hp2]
      · have hp2 := hp
        rw [keymap_test_eq] at hp2
        have hf : keymap_test x (x.XKeysymToKeycode ((map_entry i).slot j) % 256) = false := by
          simpa using hp
        simp only [h0, if_false, hf, Bool.false_eq_true]
        simp only [Bool.not_eq_true] at hp2
        simp only [List.map_cons, ne_eq, h0, not_false_eq_true, decide_True,
          List.takeWhile_cons_of_pos, List.any_cons, hp2, Bool.false_or]
        exact ih

/-- One pass of the outer loop body writes, for a key of `keysym` type, whether
one of its listed symbols is held, and nothing else. -/
theorem key_scan_one_spec (x : x_server) (i : Nat) (p : Nat → Bool) :
    key_scan_one x i p =
      if (map_entry i).what = keysym then
        Function.update p i ((listed_symbols (map_entry i)).any
          (fun sym => keycode_bit_set x (x.XKeysymToKeycode sym % 256)))
      else p := by
  unfold key_scan_one
  by_cases hk : (map_entry i).what = keysym
  · have hs := key_symbol_loop_spec x i (List.range 7) p
    simp only [hk, ne_eq, not_true_eq_false, if_false, if_true]
    rw [hs.2]
    unfold listed_symbols
    rw [← hs.1]
    cases hb : (key_symbol_loop x i (List.range 7) (false, p)).1 <;> simp
  · simp [hk]

/-- After the outer loop has run over the keys below `n`, the flag of a
`keysym` key below `n` tells whether one of its listed symbols is held; every
other flag is as before. -/
theorem linux_key_scan_range (x : x_server) (p : Nat → Bool) (n i : Nat) :
    ((List.range n).foldl (fun p i => key_scan_one x i p) p) i =
      if i < n ∧ (map_entry i).what = keysym then
        (listed_symbols (map_entry i)).any
          (fun sym => keycode_bit_set x (x.XKeysymToKeycode sym % 256))
      else p i := by
  induction n with
  | zero => simp
  | succ n ih =>
    rw [List.range_succ, List.foldl_append]
    simp only [List.foldl_cons, List.foldl_nil]
    rw [key_scan_one_spec]
    by_cases hk : (map_entry n).what = keysym
    · rw [if_pos hk]
      by_cases hin : i = n
      · subst hin
        simp [hk]
      · rw [Function.update_noteq hin, ih]
        have : i < n + 1 ↔ i < n := by omega
        simp only [this]
    · rw [if_neg hk, ih]
      by_cases hin : i = n
      · subst hin
        simp [hk]
      · have : i < n + 1 ↔ i < n := by omega
        simp only [this]

set_option maxRecDepth 100000 in
/-- In the table every key of `keysym` type lists at most seven symbols, none
of them zero: the symbols the loop reads are the initialisers of the entry. -/
theorem listed_symbols_map : ∀ i, i < key_MAX → (map_entry i).what = keysym →
    listed_symbols (map_entry i) = (map_entry i).xkey_or_key_mask := by
  decide

/-- C11 (key-symbol symmetry).  After the input thread has handled a key press
or a key release event, for every engine key code `i` below `key_MAX` whose
map entry is of `keysym` type, the pressed flag of `i` is true exactly when one
of the platform key symbols listed for `i` in the table has the bit of its key
code set in the keyboard state `XQueryKeymap` returned. -/
theorem key_symbol_symmetry (x : x_server) (event : XEvent) (s : linux_input_state) (i : Nat)
    (hev : event = XEvent.KeyPress ∨ event = XEvent.KeyRelease)
    (hi : i < key_MAX) (hk : (map_entry i).what = keysym) :
    ((linux_input_pthread_step x event s)._linux_pressed_sk_keys i = true ↔
      ∃ sym, sym ∈ (map_entry i).xkey_or_key_mask ∧
        keycode_bit_set x (x.XKeysymToKeycode sym % 256) = true) := by
  have hcaps : i ≠ key_caps_lock := by
    intro h
    rw [h] at hk
    revert hk
    decide
  have hstep : (linux_input_pthread_step x event s)._linux_pressed_sk_keys i =
      linux_key_scan x s._linux_pressed_sk_keys i := by
    rcases hev with rfl | rfl <;>
      simp [linux_input_pthread_step, linux_caps_lock, Function.update_noteq hcaps]
  rw [hstep]
  unfold linux_key_scan
  rw [linux_key_scan_range, if_pos ⟨hi, hk⟩, List.any_eq_true, listed_symbols_map i hi hk]

/-- C11 at the shift key: its listed symbols are `XK_Shift_L` and
`XK_Shift_R`; with the right shift key held a key press sets the flag, with
the left shift key held as well, and with neither held a key release clears
it. -/
theorem key_symbol_symmetry_witness :
    (map_entry key_shift).xkey_or_key_mask = [XK_Shift_L, XK_Shift_R] ∧
    (linux_input_pthread_step (sample_x_server [XK_Shift_R]) XEvent.KeyPress
      sample_input_state)._linux_pressed_sk_keys key_shift = true ∧
    (linux_input_pthread_step (sample_x_server [XK_Shift_L]) XEvent.KeyPress
      sample_input_state)._linux_pressed_sk_keys key_shift = true ∧
    (linux_input_pthread_step (sample_x_server []) XEvent.KeyRelease
      { sample_input_state with _linux_pressed_sk_keys := fun _ => true })._linux_pressed_sk_keys
        key_shift = false :=
  ⟨by decide,
    (key_symbol_symmetry (sample_x_server [XK_Shift_R]) XEvent.KeyPress sample_input_state
      key_shift (Or.inl rfl) (by decide) (by decide)).mpr ⟨XK_Shift_R, by decide, by decide⟩,
    (key_symbol_symmetry (sample_x_server [XK_Shift_L]) XEvent.KeyPress sample_input_state
      key_shift (Or.inl rfl) (by decide) (by decide)).mpr ⟨XK_Shift_L, by decide, by decide⟩,
    Bool.eq_false_iff.mpr (fun h =>
      absurd ((key_symbol_symmetry (sample_x_server []) XEvent.KeyRelease
        { sample_input_state with _linux_pressed_sk_keys := fun _ => true }
        key_shift (Or.inr rfl) (by decide) (by decide)).mp h) (by decide))⟩

/-! ## Initialisation of the Linux backend -/

/-- Without a display connection `linux_init` logs reason code 90 and returns
false; no window is created. -/
theorem linux_init_no_display (x : x_init_env) (s : linux_init_state)
    (h : x.XOpenDisplay = nullptr) :
    linux_init x s = Except.ok (false,
      { s with
        dpy := nullptr
        calls := s.calls ++ [linux_init_call.signal_SIGINT, linux_init_call.XInitThreads,
          linux_init_call.log_fail_reason 90 "Cannot connect to X server"] }) := by
  unfold linux_init
  simp [h]

/-- When `linux_init` returns true, the display connection was opened, a
framebuffer configuration was returned and it has a visual. -/
theorem linux_init_true (x : x_init_env) (s s2 : linux_init_state)
    (h : linux_init x s = Except.ok (true, s2)) :
    x.XOpenDisplay ≠ nullptr ∧
      ∃ config rest, x.glXChooseFBConfig = config :: rest ∧
        x.glXGetVisualFromFBConfig config ≠ nullptr := by
  unfold linux_init at h
  dsimp only at h
  by_cases hd : x.XOpenDisplay = nullptr
  · rw [if_pos hd] at h
    simp at h
  · rw [if_neg hd] at h
    refine ⟨hd, ?_⟩
    cases hc : x.glXChooseFBConfig with
    | nil =>
      rw [hc] at h
      simp at h
    | cons config rest =>
      rw [hc] at h
      dsimp only at h
      by_cases hv : x.glXGetVisualFromFBConfig config = nullptr
      · rw [if_pos hv] at h
        simp at h
      · exact ⟨config, rest, rfl, hv⟩

/-- With a display but no framebuffer configuration, `linux_init` never
returns: it reads through the null pointer `glXChooseFBConfig` returned. -/
theorem linux_init_no_fbconfig (x : x_init_env) (s : linux_init_state)
    (hd : x.XOpenDisplay ≠ nullptr) (hc : x.glXChooseFBConfig = []) :
    linux_init x s = Except.error fault.null_dereference := by
  unfold linux_init
  dsimp only
  rw [if_neg hd, hc]

/-- C12 fails on the code.  On an X server that accepts the connection but
has no framebuffer configuration matching `fb_att`, `glXChooseFBConfig` returns
null and line 272 reads through it: `linux_init` ends in a null dereference
instead of logging a reason and returning false, as it does when the display
cannot be opened and when the configuration has no visual. -/
theorem linux_init_null_fbconfig_dereferenced :
    linux_init sample_x_no_fbconfig sample_init_state = Except.error fault.null_dereference ∧
    (∀ s2, linux_init sample_x_no_fbconfig sample_init_state ≠ Except.ok (false, s2)) ∧
    (∃ s2, linux_init sample_x_ready sample_init_state = Except.ok (true, s2)) := by
  have h1 : linux_init sample_x_no_fbconfig sample_init_state =
      Except.error fault.null_dereference := rfl
  refine ⟨h1, ?_, ⟨_, rfl⟩⟩
  intro s2 h
  rw [h1] at h
  cases h

/-! ## Acquire before release -/

section ownership

variable (hand : handed_) (material : material_t) (w : sk_world)

/-- For a single hand `input_hand_material` is the one-hand body. -/
theorem input_hand_material_of_ne_max (hne : hand ≠ handed_max) :
    input_hand_material hand material w = input_hand_material_hand hand material w := by
  simp [input_hand_material, hne]

/-- The acquisition leaves `local` alone. -/
theorem input_hand_material_acquire_input_render :
    (input_hand_material_acquire material w).input_render = w.input_render := by
  unfold input_hand_material_acquire
  split_ifs <;> rfl

/-- The count of a non-null material after the acquisition. -/
theorem input_hand_material_acquire_refs (h : material ≠ nullptr) :
    (input_hand_material_acquire material w).material_refs material =
      w.material_refs material + 1 := by
  unfold input_hand_material_acquire
  rw [if_pos h]
  simp [material_addref]

/-- The counts after the release of the stored material. -/
theorem input_hand_material_release_refs (m : material_t) :
    (input_hand_material_release hand w).material_refs m =
      if m = w.input_render.hand_material hand ∧ m ≠ nullptr then w.material_refs m - 1
      else w.material_refs m := by
  unfold input_hand_material_release material_release
  by_cases h0 : w.input_render.hand_material hand = nullptr
  · rw [if_pos h0]
    by_cases hm : m = w.input_render.hand_material hand
    · have : m = nullptr := hm.trans h0
      simp [this]
    · simp [hm]
  · rw [if_neg h0]
    by_cases hm : m = w.input_render.hand_material hand
    · subst hm
      simp [h0]
    · simp [Function.update_apply, hm]

/-- The operations `input_hand_material` logs, in order: the addref of the new
material, then the release of the stored one. -/
theorem input_hand_material_hand_asset_log :
    (input_hand_material_hand hand material w).asset_log =
      w.asset_log ++
        (if material ≠ nullptr then [asset_op.material_addref material] else []) ++
        (if w.input_render.hand_material hand ≠ nullptr then
          [asset_op.material_release (w.input_render.hand_material hand)]
        else []) := by
  unfold input_hand_material_hand input_hand_material_store input_hand_material_release
  dsimp only
  rw [input_hand_material_acquire_input_render]
  unfold material_release input_hand_material_acquire material_addref
  by_cases hm : material = nullptr <;>
    by_cases ho : w.input_render.hand_material hand = nullptr <;> simp [hm, ho]

/-- The operations the replacement of a stored model logs, in order: the
addref of the new model, then the release of the stored one. -/
theorem controller_model_store_asset_log (model : model_t)
    (hne : model ≠ w.input_render.controller_model hand) :
    (controller_model_store hand model w).asset_log =
      w.asset_log ++ [asset_op.model_addref model] ++
        (if w.input_render.controller_model hand ≠ nullptr then
          [asset_op.model_release (w.input_render.controller_model hand)]
        else []) := by
  unfold controller_model_store
  rw [if_pos hne]
  dsimp only
  unfold model_release
  by_cases ho : w.input_render.controller_model hand = nullptr <;>
    simp [ho, model_addref, set_controller_model]

end ownership

/-- Counting for one replacement: a handle that some slot holds, and that is
not the one being overwritten, keeps a positive count after the addref of the
new handle and after the release of the old one. -/
theorem replace_keeps_positive (arr : handed_ → Nat) (refs : Nat → Nat) (h h2 : handed_)
    (new m : Nat) (hh : h = handed_left ∨ h = handed_right)
    (hh2 : h2 = handed_left ∨ h2 = handed_right)
    (inv : ∀ m, m ≠ nullptr → slot_count arr m ≤ refs m)
    (hm : m ≠ nullptr) (hst : arr h2 = m) (hkeep : h2 ≠ h ∨ m = new) :
    1 ≤ refs m + (if m = new then 1 else 0) ∧
      1 ≤ refs m + (if m = new then 1 else 0) - (if m = arr h then 1 else 0) := by
  have hinv := inv m hm
  unfold slot_count at hinv
  have hsame : h2 = h → m = new := fun e => hkeep.resolve_left (fun ne => ne e)
  rcases hh with rfl | rfl <;> rcases hh2 with rfl | rfl
  · have hk := hsame rfl
    generalize arr handed_left = a at *
    generalize arr handed_right = b at *
    split_ifs at hinv ⊢ <;> omega
  · generalize arr handed_left = a at *
    generalize arr handed_right = b at *
    split_ifs at hinv ⊢ <;> omega
  · generalize arr handed_left = a at *
    generalize arr handed_right = b at *
    split_ifs at hinv ⊢ <;> omega
  · have hk := hsame rfl
    generalize arr handed_left = a at *
    generalize arr handed_right = b at *
    split_ifs at hinv ⊢ <;> omega

/-- Counting for one replacement: the discipline holds again once the slot is
overwritten. -/
theorem replace_keeps_owned (arr : handed_ → Nat) (refs : Nat → Nat) (h : handed_)
    (new m : Nat) (hh : h = handed_left ∨ h = handed_right)
    (inv : ∀ m, m ≠ nullptr → slot_count arr m ≤ refs m) (hm : m ≠ nullptr) :
    slot_count (Function.update arr h new) m ≤
      refs m + (if m = new then 1 else 0) - (if m = arr h then 1 else 0) := by
  have hinv := inv m hm
  unfold slot_count at hinv ⊢
  rcases hh with rfl | rfl
  · rw [Function.update_same, Function.update_noteq (by decide)]
    generalize arr handed_left = a at *
    generalize arr handed_right = b at *
    split_ifs at hinv ⊢ <;> omega
  · rw [Function.update_same, Function.update_noteq (by decide)]
    generalize arr handed_left = a at *
    generalize arr handed_right = b at *
    split_ifs at hinv ⊢ <;> omega

section ownership_counts

variable (hand : handed_) (material : material_t) (w : sk_world)

/-- The counts after the acquisition of a non-null material. -/
theorem input_hand_material_acquire_refs_all (h : material ≠ nullptr) (m : material_t) :
    (input_hand_material_acquire material w).material_refs m =
      w.material_refs m + (if m = material then 1 else 0) := by
  unfold input_hand_material_acquire
  rw [if_pos h]
  by_cases hm : m = material
  · subst hm
    simp [material_addref]
  · simp [material_addref, Function.update_apply, hm]

/-- The counts after the acquisition and the release, for a non-null handle. -/
theorem input_hand_material_release_acquire_refs (h : material ≠ nullptr) (m : material_t)
    (hm : m ≠ nullptr) :
    (input_hand_material_release hand (input_hand_material_acquire material w)).material_refs m =
      w.material_refs m + (if m = material then 1 else 0) -
        (if m = w.input_render.hand_material hand then 1 else 0) := by
  rw [input_hand_material_release_refs, input_hand_material_acquire_input_render,
    input_hand_material_acquire_refs_all material w h]
  by_cases ho : m = w.input_render.hand_material hand
  · rw [if_pos ⟨ho, hm⟩, if_pos ho]
  · rw [if_neg (fun hc => ho hc.1), if_neg ho]
    rfl

/-- The counts after the addref of a model. -/
theorem model_addref_refs (model m : model_t) :
    (model_addref model w).models.refs m = w.models.refs m + (if m = model then 1 else 0) := by
  by_cases hm : m = model
  · subst hm
    simp [model_addref]
  · simp [model_addref, Function.update_apply, hm]

/-- The counts after the addref of the new model and the release of the stored
one, for a non-null handle. -/
theorem model_release_addref_refs (model m : model_t) (hm : m ≠ nullptr) :
    (model_release (w.input_render.controller_model hand) (model_addref model w)).models.refs m =
      w.models.refs m + (if m = model then 1 else 0) -
        (if m = w.input_render.controller_model hand then 1 else 0) := by
  unfold model_release
  by_cases h0 : w.input_render.controller_model hand = nullptr
  · have ho : m ≠ w.input_render.controller_model hand := fun hc => hm (hc.trans h0)
    rw [if_pos h0, model_addref_refs, if_neg ho]
    rfl
  · rw [if_neg h0]
    by_cases ho : m = w.input_render.controller_model hand
    · rw [if_pos ho]
      subst ho
      simp [model_addref_refs]
    · rw [if_neg ho]
      simp [Function.update_apply, ho, model_addref_refs]

end ownership_counts

/-- The sample world with two materials keeps the ownership discipline. -/
theorem sample_world_two_materials_owned : materials_owned sample_world_two_materials := by
  intro m hm
  unfold slot_count
  show ((if (5 : Nat) = m then 1 else 0) + (if (0 : Nat) = m then 1 else 0)) ≤
    (if m = 5 ∨ m = 6 then 1 else 0)
  have h0 : ¬ (0 : Nat) = m := fun h => hm h.symm
  split_ifs <;> omega

/-- The sample world with a stored model keeps the ownership discipline. -/
theorem sample_world_stored_model_owned : models_owned sample_world_stored_model := by
  intro m hm
  unfold slot_count
  show ((if (3 : Nat) = m then 1 else 0) + (if (0 : Nat) = m then 1 else 0)) ≤
    (if m = 1 ∨ m = 2 ∨ m = 3 then 1 else 0)
  have h0 : ¬ (0 : Nat) = m := fun h => hm h.symm
  split_ifs <;> omega

/-- C13 as stated fails on the code.  The left hand stores material 5 with the
single reference of its slot and `input_hand_material(handed_left, 6)` is
called: after the addref of 6 and the release of 5 (line 175), and before the
assignment of line 177, the slot still holds 5 and the count of 5 is zero.  The
same happens to model 3 in the replacement block of
`input_controller_model_set` (line 243, before line 245).  Both worlds keep the
ownership discipline.  Outside the discipline, with material 5 in both slots
on a single reference, the release also takes to zero the material the right
hand keeps. -/
theorem overwritten_handle_at_zero_while_stored :
    materials_owned sample_world_two_materials ∧
    input_hand_material handed_left 6 sample_world_two_materials =
      input_hand_material_store handed_left 6
        (input_hand_material_release handed_left
          (input_hand_material_acquire 6 sample_world_two_materials)) ∧
    (input_hand_material_release handed_left
      (input_hand_material_acquire 6
        sample_world_two_materials)).input_render.hand_material handed_left = 5 ∧
    (input_hand_material_release handed_left
      (input_hand_material_acquire 6 sample_world_two_materials)).material_refs 5 = 0 ∧
    models_owned sample_world_stored_model ∧
    controller_model_store handed_left 1 sample_world_stored_model =
      set_controller_model handed_left 1
        (model_release 3 (model_addref 1 sample_world_stored_model)) ∧
    (model_release 3
      (model_addref 1 sample_world_stored_model)).input_render.controller_model handed_left = 3 ∧
    (model_release 3 (model_addref 1 sample_world_stored_model)).models.refs 3 = 0 ∧
    (input_hand_material_release handed_left
      (input_hand_material_acquire 6
        sample_world_shared_material)).input_render.hand_material handed_right = 5 ∧
    (input_hand_material_release handed_left
      (input_hand_material_acquire 6 sample_world_shared_material)).material_refs 5 = 0 :=
  ⟨sample_world_two_materials_owned, rfl, by decide, by decide,
    sample_world_stored_model_owned, rfl, by decide, by decide, by decide, by decide⟩

/-- C13, amended (acquire before release).  For either hand:
`input_hand_material` logs the addref of the new material before the release
of the stored one, and the replacement block of `input_controller_model_set`
logs the addref of the new model before the release of the stored one.  Hence
the count of the handle being written is at least one after every statement:
for a model it is one above its old count after the addref and after the
release; for a material it is one above its old count after the addref and
stays positive after the release, also when it is the stored material itself.
In particular, when `M` is already the stored material of `h` with reference
count 1, its count is 2 after the addref, 1 after the release and 1 at the end,
with `M` still stored.  In a world that keeps the ownership discipline (one
reference for each slot that stores a handle) every handle that a slot holds
and keeps holding, that is every stored handle but the one being overwritten,
has a positive count after the addref and after the release, and the
discipline holds again at the end. -/
theorem acquire_before_release (h : handed_) (M : material_t) (w : sk_world)
    (hh : h = handed_left ∨ h = handed_right) (hM : M ≠ nullptr) :
    (input_hand_material h M w).asset_log =
        w.asset_log ++ [asset_op.material_addref M] ++
          (if w.input_render.hand_material h ≠ nullptr then
            [asset_op.material_release (w.input_render.hand_material h)]
          else []) ∧
    (∀ model, model ≠ w.input_render.controller_model h →
      (controller_model_store h model w).asset_log =
          w.asset_log ++ [asset_op.model_addref model] ++
            (if w.input_render.controller_model h ≠ nullptr then
              [asset_op.model_release (w.input_render.controller_model h)]
            else []) ∧
        (model_addref model w).models.refs model = w.models.refs model + 1 ∧
        (model_release (w.input_render.controller_model h)
          (model_addref model w)).models.refs model = w.models.refs model + 1 ∧
        (controller_model_store h model w).models.refs model = w.models.refs model + 1 ∧
        (controller_model_store h model w).input_render.controller_model h = model) ∧
    ((w.input_render.hand_material h = M → 1 ≤ w.material_refs M) →
      (input_hand_material_acquire M w).material_refs M = w.material_refs M + 1 ∧
        1 ≤ (input_hand_material_release h (input_hand_material_acquire M w)).material_refs M ∧
        1 ≤ (input_hand_material h M w).material_refs M ∧
        (input_hand_material h M w).input_render.hand_material h = M) ∧
    (w.input_render.hand_material h = M → w.material_refs M = 1 →
      (input_hand_material_acquire M w).material_refs M = 2 ∧
        (input_hand_material_release h (input_hand_material_acquire M w)).material_refs M = 1 ∧
        (input_hand_material h M w).material_refs M = 1 ∧
        (input_hand_material h M w).input_render.hand_material h = M) ∧
    (materials_owned w →
      (∀ h2 m, (h2 = handed_left ∨ h2 = handed_right) → m ≠ nullptr →
        w.input_render.hand_material h2 = m → (h2 ≠ h ∨ m = M) →
          1 ≤ (input_hand_material_acquire M w).material_refs m ∧
            1 ≤ (input_hand_material_release h
              (input_hand_material_acquire M w)).material_refs m) ∧
        materials_owned (input_hand_material h M w)) ∧
    (models_owned w → ∀ model, model ≠ w.input_render.controller_model h →
      (∀ h2 m, (h2 = handed_left ∨ h2 = handed_right) → m ≠ nullptr →
        w.input_render.controller_model h2 = m → (h2 ≠ h ∨ m = model) →
          1 ≤ (model_addref model w).models.refs m ∧
            1 ≤ (model_release (w.input_render.controller_model h)
              (model_addref model w)).models.refs m) ∧
        models_owned (controller_model_store h model w)) := by
  have hne : h ≠ handed_max := by rcases hh with rfl | rfl <;> decide
  have hacq := input_hand_material_acquire_refs M w hM
  have hrel := input_hand_material_release_refs h (input_hand_material_acquire M w) M
  rw [input_hand_material_acquire_input_render, hacq] at hrel
  have hfin : (input_hand_material h M w).material_refs =
      (input_hand_material_release h (input_hand_material_acquire M w)).material_refs := by
    rw [input_hand_material_of_ne_max h M w hne]
    rfl
  have hsto : (input_hand_material h M w).input_render.hand_material h = M := by
    rw [input_hand_material_of_ne_max h M w hne]
    simp [input_hand_material_hand, input_hand_material_store]
  refine ⟨?_, ?_, ?_, ?_, ?_, ?_⟩
  · rw [input_hand_material_of_ne_max h M w hne, input_hand_material_hand_asset_log, if_pos hM]
  · intro model hmodel
    have hadd : (model_addref model w).models.refs model = w.models.refs model + 1 := by
      simp [model_addref]
    have hrelm : (model_release (w.input_render.controller_model h)
        (model_addref model w)).models.refs model = w.models.refs model + 1 := by
      unfold model_release
      split_ifs with h0
      · exact hadd
      · simp [model_addref, Function.update_apply, hmodel]
    refine ⟨controller_model_store_asset_log h w model hmodel, hadd, hrelm, ?_,
      controller_model_store_get h model w⟩
    unfold controller_model_store
    rw [if_pos hmodel]
    exact hrelm
  · intro hpos
    have h1 : 1 ≤ (input_hand_material_release h
        (input_hand_material_acquire M w)).material_refs M := by
      rw [hrel]
      split_ifs with hc
      · have := hpos hc.1.symm
        omega
      · omega
    exact ⟨hacq, h1, by rw [hfin]; exact h1, hsto⟩
  · intro hst hone
    have h1 : (input_hand_material_release h
        (input_hand_material_acquire M w)).material_refs M = 1 := by
      rw [hrel, if_pos ⟨hst.symm, hM⟩, hone]
    exact ⟨by rw [hacq, hone], h1, by rw [hfin]; exact h1, hsto⟩
  · intro hown
    refine ⟨?_, ?_⟩
    · intro h2 m hh2 hm hst hkeep
      rw [input_hand_material_acquire_refs_all M w hM,
        input_hand_material_release_acquire_refs h M w hM m hm]
      exact replace_keeps_positive w.input_render.hand_material w.material_refs h h2 M m hh hh2
        hown hm hst hkeep
    · intro m hm
      rw [hfin, input_hand_material_release_acquire_refs h M w hM m hm,
        input_hand_material_of_ne_max h M w hne]
      have hk := replace_keeps_owned w.input_render.hand_material w.material_refs h M m hh hown hm
      have hslots : (input_hand_material_hand h M w).input_render.hand_material =
          Function.update w.input_render.hand_material h M := by
        have hr : (input_hand_material_release h
            (input_hand_material_acquire M w)).input_render = w.input_render := by
          unfold input_hand_material_release material_release
          split_ifs
          · exact input_hand_material_acquire_input_render M w
          · exact input_hand_material_acquire_input_render M w
        unfold input_hand_material_hand input_hand_material_store
        dsimp only
        rw [hr]
      rw [hslots]
      exact hk
  · intro hown model hmodel
    refine ⟨?_, ?_⟩
    · intro h2 m hh2 hm hst hkeep
      rw [model_addref_refs, model_release_addref_refs h w model m hm]
      exact replace_keeps_positive w.input_render.controller_model w.models.refs h h2 model m hh
        hh2 hown hm hst hkeep
    · intro m hm
      have hw : controller_model_store h model w =
          set_controller_model h model
            (model_release (w.input_render.controller_model h) (model_addref model w)) := by
        unfold controller_model_store
        rw [if_pos hmodel]
        rfl
      have hk := replace_keeps_owned w.input_render.controller_model w.models.refs h model m hh
        hown hm
      rw [← model_release_addref_refs h w model m hm] at hk
      rw [hw]
      have hslots : (set_controller_model h model
          (model_release (w.input_render.controller_model h)
            (model_addref model w))).input_render.controller_model =
          Function.update w.input_render.controller_model h model := by
        unfold set_controller_model
        simp
      rw [hslots]
      exact hk

/-- The sample world with one material keeps the ownership discipline. -/
theorem sample_world_single_material_owned : materials_owned sample_world_single_material := by
  intro m hm
  unfold slot_count
  show ((if (5 : Nat) = m then 1 else 0) + (if (0 : Nat) = m then 1 else 0)) ≤
    (if m = 5 then 1 else 0)
  have h0 : ¬ (0 : Nat) = m := fun h => hm h.symm
  split_ifs <;> omega

/-- C13 at the sample world in which material 5 is stored for the left hand
and has the single reference of that slot: setting it again takes its count to
2, back to 1, and leaves it stored with count 1. -/
theorem acquire_before_release_witness :
    sample_world_single_material.input_render.hand_material handed_left = 5 ∧
    sample_world_single_material.material_refs 5 = 1 ∧
    (input_hand_material_acquire 5 sample_world_single_material).material_refs 5 = 2 ∧
    (input_hand_material_release handed_left
      (input_hand_material_acquire 5 sample_world_single_material)).material_refs 5 = 1 ∧
    (input_hand_material handed_left 5 sample_world_single_material).material_refs 5 = 1 ∧
    (input_hand_material handed_left 5
      sample_world_single_material).input_render.hand_material handed_left = 5 ∧
    (input_hand_material handed_left 5 sample_world_single_material).asset_log =
      [asset_op.material_addref 5, asset_op.material_release 5] ∧
    materials_owned (input_hand_material handed_left 5 sample_world_single_material) :=
  have hw := acquire_before_release handed_left 5 sample_world_single_material (Or.inl rfl)
    (by decide)
  have hd := hw.2.2.2.1 rfl rfl
  ⟨rfl, rfl, hd.1, hd.2.1, hd.2.2.1, hd.2.2.2, hw.1,
    (hw.2.2.2.2.1 sample_world_single_material_owned).2⟩

end sk
